import Mathlib

/-!
Shallow embedding of the Valkyrie signal bot core
(`src/signal_scorer.py`, `src/config.py`, `src/cogs/signal_engine.py`)
and proofs about the spec's claims.

Numeric values computed by the Python code are modelled as exact
rationals (`ℚ`); Python's `round(x, n)` built-in is modelled as exact
round-half-to-even at `10^n` granularity (`pyRound`).  Free-text
diagnostic strings (log lines, the `confluences` list, Discord embeds)
are presentation-only and are not part of the model.
-/

namespace Valkyrie

/-- Trade direction, `"LONG"` / `"SHORT"` in the source. -/
inductive Direction where
  | LONG
  | SHORT
deriving DecidableEq, Repr

/-- Signal tier grade, `"A+"` / `"B+"` / `"C+"` in the source. -/
inductive Grade where
  | APlus
  | BPlus
  | CPlus
deriving DecidableEq, Repr

/-- Trade duration class, `"scalp"` / `"day"` / `"swing"` in the source. -/
inductive TradeType where
  | scalp
  | day
  | swing
deriving DecidableEq, Repr

open Direction Grade TradeType

/-- Round-half-to-even to the nearest integer, the rounding used by
Python's `round` built-in (banker's rounding), on exact rationals. -/
def roundHalfEven (x : ℚ) : ℤ :=
  if x - ⌊x⌋ < 1/2 then ⌊x⌋
  else if 1/2 < x - ⌊x⌋ then ⌊x⌋ + 1
  else if ⌊x⌋ % 2 = 0 then ⌊x⌋ else ⌊x⌋ + 1

/-- Python `round(x, n)`: round-half-to-even at `10^(-n)` granularity. -/
def pyRound (n : ℕ) (x : ℚ) : ℚ :=
  (roundHalfEven (x * (10 ^ n : ℕ))) / ((10 ^ n : ℕ) : ℚ)

/-! ## Quota Gate (`src/cogs/signal_engine.py`, `_quota_allows` / `_record_quota_send`)

Per trade-type quota bookkeeping; one `QuotaState` models one entry of
`self._quota` (the dict initialised in `SignalEngine.__init__`). -/

structure QuotaState where
  dayStart : ℚ
  sentA : ℕ
  sentB : ℕ
  sentC : ℕ
  lastHourSent : ℚ
  hourHasAplus : Bool
  dayHasBplus : Bool
  dailyTarget : ℕ
deriving DecidableEq, Repr

/-- Reads `q["sent_today"][grade]`. -/
def QuotaState.sentToday (q : QuotaState) : Grade → ℕ
  | APlus => q.sentA
  | BPlus => q.sentB
  | CPlus => q.sentC

/-- Computes `sum(q["sent_today"].values())`. -/
def QuotaState.totalSent (q : QuotaState) : ℕ := q.sentA + q.sentB + q.sentC

/-- The `GAP` table of `_quota_allows` (seconds of minimum gap). -/
def GAP : TradeType → Grade → ℚ
  | scalp, APlus => 0
  | scalp, BPlus => 55 * 60
  | scalp, CPlus => 55 * 60
  | day,   APlus => 60 * 60
  | day,   BPlus => 90 * 60
  | day,   CPlus => 90 * 60
  | swing, APlus => 90 * 60
  | swing, BPlus => 120 * 60
  | swing, CPlus => 120 * 60

/-- Models `SignalEngine._quota_allows`, with the ambient state `self._quota[trade_type]`
and `time.time()` passed explicitly. -/
def quotaAllows (tt : TradeType) (grade : Grade) (q : QuotaState) (now : ℚ) : Bool :=
  let totalSent := q.totalSent
  let target := q.dailyTarget
  let secsSince := now - q.lastHourSent
  let minGap := GAP tt grade
  -- A+ scalp: never blocked
  if grade = APlus ∧ tt = scalp then true
  -- All others: enforce minimum gap first
  else if secsSince < minGap then false
  -- A+ day/swing: gap met = always send (no daily cap)
  else if grade = APlus then true
  else match tt with
    | scalp =>
      match grade with
      | BPlus => !q.hourHasAplus
      | CPlus => !q.dayHasBplus && decide (q.sentB = 0)
      | APlus => false
    | day =>
      if totalSent ≥ target then false
      else match grade with
        | BPlus => !q.hourHasAplus && decide ((target : ℤ) - q.sentA - q.sentB > 0)
        | CPlus => !q.dayHasBplus && decide (q.sentB = 0) && decide (totalSent < target)
        | APlus => false
    | swing =>
      if totalSent ≥ target + 1 then false
      else match grade with
        | BPlus => !q.hourHasAplus && decide ((target : ℤ) - q.sentA - q.sentB > 0)
        | CPlus => !q.dayHasBplus && decide (q.sentB = 0) && decide (totalSent < target)
        | APlus => false

/-- Models `SignalEngine._quota_allows` as a state transformer: the source method
only reads `self._quota[trade_type]`, so each `return` site hands back the
incoming state unchanged alongside the decision. -/
def quotaAllowsRun (tt : TradeType) (grade : Grade) (q : QuotaState) (now : ℚ) :
    Bool × QuotaState :=
  if grade = APlus ∧ tt = scalp then (true, q)
  else if now - q.lastHourSent < GAP tt grade then (false, q)
  else if grade = APlus then (true, q)
  else match tt with
    | scalp =>
      match grade with
      | BPlus => (!q.hourHasAplus, q)
      | CPlus => (!q.dayHasBplus && decide (q.sentB = 0), q)
      | APlus => (false, q)
    | day =>
      if q.totalSent ≥ q.dailyTarget then (false, q)
      else match grade with
        | BPlus => (!q.hourHasAplus && decide ((q.dailyTarget : ℤ) - q.sentA - q.sentB > 0), q)
        | CPlus => (!q.dayHasBplus && decide (q.sentB = 0) && decide (q.totalSent < q.dailyTarget), q)
        | APlus => (false, q)
    | swing =>
      if q.totalSent ≥ q.dailyTarget + 1 then (false, q)
      else match grade with
        | BPlus => (!q.hourHasAplus && decide ((q.dailyTarget : ℤ) - q.sentA - q.sentB > 0), q)
        | CPlus => (!q.dayHasBplus && decide (q.sentB = 0) && decide (q.totalSent < q.dailyTarget), q)
        | APlus => (false, q)

/-- Models `SignalEngine._record_quota_send`: bump `sent_today[grade]`, stamp
`last_hour_sent = time.time()`, and raise the hour/day flags. -/
def recordQuotaSend (q : QuotaState) (now : ℚ) (grade : Grade) : QuotaState :=
  let q1 :=
    match grade with
    | APlus => { q with sentA := q.sentA + 1 }
    | BPlus => { q with sentB := q.sentB + 1 }
    | CPlus => { q with sentC := q.sentC + 1 }
  let q2 := { q1 with lastHourSent := now }
  match grade with
  | APlus => { q2 with hourHasAplus := true }
  | BPlus => { q2 with dayHasBplus := true }
  | CPlus => q2

/-- A scalp quota state whose daily target is already exhausted
(30 A+ signals sent against a target of 24), gap satisfied. -/
def quotaScalpFull : QuotaState :=
  { dayStart := 0, sentA := 30, sentB := 0, sentC := 0,
    lastHourSent := 0, hourHasAplus := true, dayHasBplus := false,
    dailyTarget := 24 }

/-! ## Trade Ledger (`SignalEngine.monitor_trades_loop`, one polled update)

`monitor_trades_loop` polls each open trade's current price, checks the
stop first (`continue`s to the next trade on a stop hit, after recording
the loss and deleting the trade), then scans targets from the current
progress index, stopping at the first hit; hitting the last target
records a win and deletes the trade. -/

/-- Outcome of one polled price update for one open trade. -/
inductive StepResult where
  | closedLoss
  | closedWin
  | stillOpen (tpsHit : ℕ)
deriving DecidableEq, Repr

/-- The stop-hit test of `monitor_trades_loop`. -/
def slHitCheck (direction : Direction) (currentPrice sl : ℚ) : Bool :=
  match direction with
  | LONG => currentPrice ≤ sl
  | SHORT => currentPrice ≥ sl

/-- The target-hit test of `monitor_trades_loop`. -/
def tpHitCheck (direction : Direction) (currentPrice tp : ℚ) : Bool :=
  match direction with
  | LONG => currentPrice ≥ tp
  | SHORT => currentPrice ≤ tp

/-- One update of `monitor_trades_loop` for a single trade: stop first,
then the `for i in range(tps_hit, len(tps))` scan that breaks at the
first hit target. -/
def monitorStep (direction : Direction) (sl : ℚ) (tps : List ℚ) (tpsHit : ℕ)
    (currentPrice : ℚ) : StepResult :=
  if slHitCheck direction currentPrice sl then .closedLoss
  else
    match (tps.drop tpsHit).findIdx? (tpHitCheck direction currentPrice) with
    | none => .stillOpen tpsHit
    | some j =>
        if tpsHit + j + 1 = tps.length then .closedWin
        else .stillOpen (tpsHit + j + 1)

/-! ## Fast-path regime signal (`SignalEngine._update_dom_signal`)

One `DomCandle` is one `{"t": ..., "btc_d": ..., "usdt_d": ...}` sample of
`self._dom_candles`; `DomSignal` models the numeric/categorical fields of
`self._dom_signal` (the free-text `scalp_reason` is not modelled). -/

structure DomCandle where
  t : ℚ
  btc_d : ℚ
  usdt_d : ℚ
deriving DecidableEq, Repr

/-- Per-series trend label. -/
inductive Trend where
  | rising
  | falling
  | flat
deriving DecidableEq, Repr

/-- Scalp bias returned by the fast path. -/
inductive ScalpBias where
  | long_ok
  | short_ok
  | btc_long_only
  | neutral
  | blocked
deriving DecidableEq, Repr

structure DomSignal where
  usdtTrend : Trend
  btcTrend : Trend
  usdtVelocity : ℚ
  btcVelocity : ℚ
  usdtAccel : ℚ
  btcAccel : ℚ
  scalpBias : ScalpBias
  candleCount : ℕ
deriving DecidableEq, Repr

/-- Models `SignalEngine._update_dom_signal`: reads `self._dom_candles`, mutates
`self._dom_signal` in place (fields not written in the `< 3` early return
keep their previous values, hence the old signal is an input). -/
def updateDomSignal (candles : List DomCandle) (sig : DomSignal) : DomSignal :=
  if candles.length < 3 then
    { sig with scalpBias := .neutral, candleCount := candles.length }
  else
    -- Last 3 candles for velocity
    let recent := candles.drop (candles.length - 3)
    let usdtVals := recent.map (·.usdt_d)
    let btcVals := recent.map (·.btc_d)
    let usdtVel := ((usdtVals.getLast?.getD 0) - (usdtVals.head?.getD 0)) /
      (max (recent.length - 1 : ℕ) 1 : ℕ)
    let btcVel := ((btcVals.getLast?.getD 0) - (btcVals.head?.getD 0)) /
      (max (recent.length - 1 : ℕ) 1 : ℕ)
    -- Last 5 candles for acceleration: older = candles[-5:-2]
    let accels : ℚ × ℚ :=
      if 5 ≤ candles.length then
        let older := (candles.drop (candles.length - 5)).take 3
        let usdtOldVel := ((older.getLast?.map (·.usdt_d)).getD 0 - (older.head?.map (·.usdt_d)).getD 0) /
          (max (older.length - 1 : ℕ) 1 : ℕ)
        let btcOldVel := ((older.getLast?.map (·.btc_d)).getD 0 - (older.head?.map (·.btc_d)).getD 0) /
          (max (older.length - 1 : ℕ) 1 : ℕ)
        (usdtVel - usdtOldVel, btcVel - btcOldVel)
      else (0, 0)
    let usdtAccel := accels.1
    let btcAccel := accels.2
    -- Trend labels (threshold 0.003 percentage points per candle)
    let THRESH : ℚ := 3/1000
    let usdtTrend : Trend :=
      if usdtVel > THRESH then .rising else if usdtVel < -THRESH then .falling else .flat
    let btcTrend : Trend :=
      if btcVel > THRESH then .rising else if btcVel < -THRESH then .falling else .flat
    let currentUsdt : ℚ := ((candles.getLast?.map (·.usdt_d)).getD 0)
    -- Scalp bias decision tree
    let bias : ScalpBias :=
      if usdtTrend == Trend.rising && decide (usdtAccel > 2/1000) && decide (currentUsdt > 15/2) then .blocked
      else if usdtTrend == Trend.rising && decide (currentUsdt > 15/2) then .short_ok
      else if usdtTrend == Trend.falling && decide (currentUsdt > 15/2) then .short_ok
      else if usdtTrend == Trend.falling && (btcTrend == Trend.falling || btcTrend == Trend.flat) then .long_ok
      else if usdtTrend == Trend.falling && btcTrend == Trend.rising then .btc_long_only
      else if btcTrend == Trend.rising && decide (btcAccel > 2/1000) then .short_ok
      else .neutral
    { usdtTrend := usdtTrend
      btcTrend := btcTrend
      usdtVelocity := pyRound 5 usdtVel
      btcVelocity := pyRound 5 btcVel
      usdtAccel := pyRound 5 usdtAccel
      btcAccel := pyRound 5 btcAccel
      scalpBias := bias
      candleCount := candles.length }

/-! ## Confluence Scorer (`src/signal_scorer.py`, `SignalScorer.score_signal`)

The `indicators` dict is modelled as an `Option`-field record: a missing
key is `none`, and each read site applies the default value that its
`indicators.get(...)` call uses in the source.  A candlestick-pattern
string is abstracted to the four substring facts the scorer ever queries
of it (`"Hammer" in p`, `"Bullish Engulfing" in p`, `"Bearish Engulfing"
in p`, `"Doji" in p`). -/

/-- Labels of `divergence_rsi` / `divergence_macd`. -/
inductive Divergence where
  | bullish
  | bearish
  | none
deriving DecidableEq, Repr

/-- One entry of the `patterns` list, abstracted to the substring tests
applied to it. -/
structure Pattern where
  hasHammer : Bool
  hasBullishEngulfing : Bool
  hasBearishEngulfing : Bool
  hasDoji : Bool
deriving DecidableEq, Repr

/-- Macro regime category produced by `SignalEngine._build_regime`. -/
inductive RegimeCat where
  | risk_on_alt
  | risk_on_btc
  | risk_off
  | neutral
deriving DecidableEq, Repr

/-- The `dom_regime` dict handed to the scorer. -/
structure DomRegime where
  regime : RegimeCat
  btc_d : ℚ
  usdt_d : ℚ
  btc_d_high : Bool
  btc_d_low : Bool
deriving DecidableEq, Repr

/-- The `indicators` dict: `none` = key missing. -/
structure Indicators where
  price : Option ℚ
  rsi14 : Option ℚ
  macd_hist : Option ℚ
  macd_hist_prev : Option ℚ
  stoch_k : Option ℚ
  vol_current : Option ℚ
  vol_sma20 : Option ℚ
  ema9 : Option ℚ
  ema21 : Option ℚ
  ema50 : Option ℚ
  vwap : Option ℚ
  bb_lower : Option ℚ
  bb_upper : Option ℚ
  atr14 : Option ℚ
  obv : Option ℚ
  obv_prev : Option ℚ
  divergence_rsi : Divergence
  divergence_macd : Divergence
  patterns : List Pattern
  pivots_s1 : Option ℚ
  pivots_r1 : Option ℚ
deriving DecidableEq, Repr

/-- The defaulted local reads of `score_signal` (source lines 41, 77–89). -/
structure IndLocals where
  price : ℚ
  rsi14 : ℚ
  macd_hist : ℚ
  macd_hist_prev : ℚ
  stoch_k : ℚ
  vol_current : ℚ
  vol_sma20 : ℚ
  ema9 : ℚ
  ema21 : ℚ
  ema50 : ℚ
  vwap : ℚ
  bb_lower : ℚ
  bb_upper : ℚ
  atr : ℚ
deriving DecidableEq, Repr

def mkLocals (ind : Indicators) : IndLocals :=
  let price := ind.price.getD 0
  { price := price
    rsi14 := ind.rsi14.getD 50
    macd_hist := ind.macd_hist.getD 0
    macd_hist_prev := ind.macd_hist_prev.getD 0
    stoch_k := ind.stoch_k.getD 50
    vol_current := ind.vol_current.getD 1
    vol_sma20 := ind.vol_sma20.getD 1
    ema9 := ind.ema9.getD price
    ema21 := ind.ema21.getD price
    ema50 := ind.ema50.getD price
    vwap := ind.vwap.getD price
    bb_lower := ind.bb_lower.getD (price * 0.97)
    bb_upper := ind.bb_upper.getD (price * 1.03)
    atr := ind.atr14.getD (price * 0.01) }

/-- Time-of-day-dependent volume multiplier floors (source lines 58–75). -/
structure VolFloors where
  hardReject : ℚ
  minimum : ℚ
  confirmed : ℚ
  strong : ℚ
deriving DecidableEq, Repr

def volFloorsFor (utcHour : ℕ) : VolFloors :=
  if 8 ≤ utcHour ∧ utcHour < 17 then
    { hardReject := 0.50, minimum := 1.20, confirmed := 1.50, strong := 2.00 }
  else if (6 ≤ utcHour ∧ utcHour < 8) ∨ (17 ≤ utcHour ∧ utcHour < 20) then
    { hardReject := 0.30, minimum := 0.80, confirmed := 1.20, strong := 1.80 }
  else
    { hardReject := 0.20, minimum := 0.50, confirmed := 0.80, strong := 1.50 }

/-- Table `config.TP_RR_RATIOS` (`src/config.py`). -/
def TP_RR_RATIOS : Grade → TradeType → List ℚ
  | APlus, scalp => [2.0, 3.5, 5.0, 7.0, 10.0]
  | APlus, day   => [2.0, 3.0, 4.0, 5.5, 7.0]
  | APlus, swing => [2.0, 3.0, 4.5, 6.5, 9.0]
  | BPlus, scalp => [2.0, 3.1, 4.5, 6.0]
  | BPlus, day   => [2.0, 2.9, 3.8, 5.0]
  | BPlus, swing => [2.0, 3.0, 4.2, 5.5]
  | CPlus, scalp => [2.0, 2.8, 3.8]
  | CPlus, day   => [2.0, 2.8, 3.5]
  | CPlus, swing => [2.0, 2.8, 3.8]

/-- Table `config.LEVERAGE` (`src/config.py`). -/
def LEVERAGE : Grade → TradeType → ℕ
  | APlus, scalp => 10
  | APlus, day   => 7
  | APlus, swing => 5
  | BPlus, scalp => 7
  | BPlus, day   => 5
  | BPlus, swing => 3
  | CPlus, scalp => 5
  | CPlus, day   => 3
  | CPlus, swing => 2

/-- Hot-reloadable `config` module globals the scorer reads. -/
structure ScorerConfig where
  GRADE_A_PLUS : ℚ
  GRADE_B_PLUS : ℚ
  GRADE_C_PLUS : ℚ
  BTC_OUTPERFORM_PCT : ℚ
deriving DecidableEq, Repr

/-- The shipped defaults of `src/config.py`. -/
def defaultConfig : ScorerConfig :=
  { GRADE_A_PLUS := 80, GRADE_B_PLUS := 60, GRADE_C_PLUS := 40,
    BTC_OUTPERFORM_PCT := 0.5 }

/-- Direction vote (source lines 94–187): weighted bullish/bearish point
tally, then the 46–54% inconclusive-band rejection. -/
def directionVote (cfg : ScorerConfig) (L : IndLocals) (ind : Indicators)
    (obImbalance takerLsRatio fundingRate btcChange coinChange : ℚ) :
    Option Direction :=
  let p1 : ℕ × ℕ :=
    if L.ema9 > L.ema21 ∧ L.ema21 > L.ema50 then (2, 0)
    else if L.ema9 < L.ema21 ∧ L.ema21 < L.ema50 then (0, 2) else (0, 0)
  let p2 : ℕ × ℕ := if L.price > L.vwap then (1, 0) else (0, 1)
  let p3 : ℕ × ℕ :=
    if L.rsi14 < 35 then (2, 0)
    else if L.rsi14 > 65 then (0, 2)
    else if 40 < L.rsi14 ∧ L.rsi14 < 60 then (0, 0)
    else if L.rsi14 > 50 then (1, 0) else (0, 1)
  let p4 : ℕ × ℕ :=
    if L.macd_hist > 0 ∧ L.macd_hist > L.macd_hist_prev then (2, 0)
    else if L.macd_hist < 0 ∧ L.macd_hist < L.macd_hist_prev then (0, 2) else (0, 0)
  let p5 : ℕ × ℕ :=
    if L.stoch_k < 20 then (1, 0) else if L.stoch_k > 80 then (0, 1) else (0, 0)
  let p6 : ℕ × ℕ :=
    if obImbalance > 0.15 then (2, 0) else if obImbalance < -0.15 then (0, 2) else (0, 0)
  let p7 : ℕ × ℕ :=
    if takerLsRatio > 1.1 then (1, 0) else if takerLsRatio < 0.9 then (0, 1) else (0, 0)
  let p8 : ℕ × ℕ :=
    if fundingRate > 0.001 then (0, 1) else if fundingRate < -0.001 then (1, 0) else (0, 0)
  let outperform := coinChange - btcChange
  let p9 : ℕ × ℕ :=
    if outperform > cfg.BTC_OUTPERFORM_PCT then (2, 0)
    else if outperform < -cfg.BTC_OUTPERFORM_PCT then (0, 1) else (0, 0)
  let p10 : ℕ × ℕ :=
    if ind.divergence_rsi = Divergence.bullish ∨ ind.divergence_macd = Divergence.bullish then (3, 0)
    else if ind.divergence_rsi = Divergence.bearish ∨ ind.divergence_macd = Divergence.bearish then (0, 3)
    else (0, 0)
  let bull0 := p1.1 + p2.1 + p3.1 + p4.1 + p5.1 + p6.1 + p7.1 + p8.1 + p9.1 + p10.1
  let bear0 := p1.2 + p2.2 + p3.2 + p4.2 + p5.2 + p6.2 + p7.2 + p8.2 + p9.2 + p10.2
  -- BB squeeze — reinforce dominant direction
  let bbWidth := (L.bb_upper - L.bb_lower) / L.price
  let bull : ℕ := if bbWidth < 0.03 ∧ bull0 ≥ bear0 then bull0 + 1 else bull0
  let bear : ℕ := if bbWidth < 0.03 ∧ ¬(bull0 ≥ bear0) then bear0 + 1 else bear0
  let total := bull + bear
  if total = 0 then Option.none
  else
    let bullRatio : ℚ := (bull : ℚ) / (total : ℚ)
    if bullRatio ≥ 0.54 then some LONG
    else if bullRatio ≤ 0.46 then some SHORT
    else Option.none

/-- Wyckoff phase labels (source lines 189–208). -/
inductive WyckoffPhase where
  | accumulation_spring
  | markup_SOS
  | distribution_UTAD
  | markdown_SOW
  | none
deriving DecidableEq, Repr

def wyckoffDetect (L : IndLocals) (ind : Indicators) (obImbalance volRatio : ℚ)
    (dir : Direction) : WyckoffPhase :=
  let obvRising := ind.obv.getD 0 > ind.obv_prev.getD 0
  if L.rsi14 < 35 ∧ volRatio ≥ 1.5 ∧ obvRising ∧ obImbalance > -0.1 ∧ dir = LONG then
    .accumulation_spring
  else if L.ema9 > L.ema21 ∧ L.ema21 > L.ema50 ∧ volRatio ≥ 1.5 ∧ L.price > L.vwap ∧
      obvRising ∧ dir = LONG then
    .markup_SOS
  else if L.rsi14 > 65 ∧ volRatio < 1.2 ∧ ¬obvRising ∧
      ind.divergence_rsi = Divergence.bearish ∧ dir = SHORT then
    .distribution_UTAD
  else if L.ema9 < L.ema21 ∧ L.ema21 < L.ema50 ∧ volRatio ≥ 1.5 ∧ L.price < L.vwap ∧
      ¬obvRising ∧ dir = SHORT then
    .markdown_SOW
  else .none

def wyckoffBonus : WyckoffPhase → ℚ
  | .accumulation_spring => 12
  | .markup_SOS => 10
  | .distribution_UTAD => 12
  | .markdown_SOW => 10
  | .none => 0

/-- Price-action bonus and the number of price-action signals detected
(source lines 210–254). -/
def paDetect (L : IndLocals) (ind : Indicators) (obImbalance : ℚ) (dir : Direction) :
    ℚ × ℕ :=
  let atrPct := L.atr / (L.price + 1e-9)
  let a1 : ℚ × ℕ :=
    if dir = LONG ∧ L.price < L.bb_lower * 1.003 ∧ L.rsi14 < 45 then (8, 1)
    else if dir = SHORT ∧ L.price > L.bb_upper * 0.997 ∧ L.rsi14 > 55 then (8, 1)
    else (0, 0)
  let a2 : ℚ × ℕ :=
    if atrPct > 0.008 then
      if dir = LONG ∧ L.price < L.vwap then (6, 1)
      else if dir = SHORT ∧ L.price > L.vwap then (6, 1)
      else (0, 0)
    else (0, 0)
  let r1 := ind.pivots_r1.getD 0
  let s1 := ind.pivots_s1.getD 0
  let a3 : ℚ × ℕ :=
    if dir = LONG ∧ r1 ≠ 0 ∧ L.price > r1 then (5, 1)
    else if dir = SHORT ∧ s1 ≠ 0 ∧ L.price < s1 then (5, 1)
    else (0, 0)
  let a4 : ℚ × ℕ :=
    if dir = LONG ∧ obImbalance > 0.20 then (6, 1)
    else if dir = SHORT ∧ obImbalance < -0.20 then (6, 1)
    else (0, 0)
  let a5 : ℚ × ℕ :=
    if dir = LONG ∧ L.ema9 > L.ema21 ∧ L.ema21 > L.ema50 ∧ L.macd_hist > 0 then (5, 1)
    else if dir = SHORT ∧ L.ema9 < L.ema21 ∧ L.ema21 < L.ema50 ∧ L.macd_hist < 0 then (5, 1)
    else (0, 0)
  (a1.1 + a2.1 + a3.1 + a4.1 + a5.1, a1.2 + a2.2 + a3.2 + a4.2 + a5.2)

/-- Aligned/conflicting candlestick pattern counts (source lines 314–328). -/
def patternCounts (patterns : List Pattern) (dir : Direction) : ℕ × ℕ :=
  patterns.foldl
    (fun acc p =>
      if dir = LONG ∧ (p.hasHammer ∨ p.hasBullishEngulfing) then (acc.1 + 1, acc.2)
      else if dir = SHORT ∧ p.hasBearishEngulfing then (acc.1 + 1, acc.2)
      else if dir = LONG ∧ p.hasBearishEngulfing then (acc.1, acc.2 + 1)
      else if dir = SHORT ∧ (p.hasHammer ∨ p.hasBullishEngulfing) then (acc.1, acc.2 + 1)
      else acc)
    (0, 0)

/-- The confluence-score assembly (source lines 256–385): all additive
components, the BTC-correlation and dominance-regime adjustments, and the
final `score = min(100, score)` cap.  The dead-volume hard reject that the
source interleaves here (lines 287–289) only reads `vol_ratio` and the
hour floors, so it is applied by `scoreSignal` before this value is used. -/
def assembleScore (symbol : String) (floors : VolFloors) (volRatio : ℚ)
    (L : IndLocals) (ind : Indicators) (dir : Direction)
    (obImbalance takerLsRatio mlScore : ℚ) (wyBonus paBonus : ℚ)
    (alignedCnt conflictingCnt : ℕ) (btcCorr : Option ℚ) (btcChange : ℚ)
    (domRegime : Option DomRegime) : ℚ :=
  -- Trend alignment (20 pts)
  let sTrend : ℚ :=
    match dir with
    | LONG =>
        (if L.ema9 > L.ema21 then 7 else 0) + (if L.ema21 > L.ema50 then 7 else 0) +
        (if L.price > L.vwap then 6 else 0)
    | SHORT =>
        (if L.ema9 < L.ema21 then 7 else 0) + (if L.ema21 < L.ema50 then 7 else 0) +
        (if L.price < L.vwap then 6 else 0)
  -- Momentum (20 pts)
  let sMomentum : ℚ :=
    match dir with
    | LONG =>
        (if L.macd_hist > 0 ∧ L.macd_hist > L.macd_hist_prev then 10 else 0) +
        (if 35 ≤ L.rsi14 ∧ L.rsi14 ≤ 65 then 8 else if L.rsi14 < 35 then 4 else 0) +
        (if L.rsi14 > 50 then 2 else 0)
    | SHORT =>
        (if L.macd_hist < 0 ∧ L.macd_hist < L.macd_hist_prev then 10 else 0) +
        (if 35 ≤ L.rsi14 ∧ L.rsi14 ≤ 65 then 8 else if L.rsi14 > 65 then 4 else 0) +
        (if L.rsi14 < 50 then 2 else 0)
  -- Volume (15 pts)
  let sVolume : ℚ :=
    if volRatio ≥ floors.strong * 1.25 then 15
    else if volRatio ≥ floors.strong then 12
    else if volRatio ≥ floors.confirmed then 8
    else if volRatio ≥ floors.minimum then 4
    else 0
  -- Order flow (15 pts)
  let sFlow : ℚ :=
    match dir with
    | LONG => (if obImbalance > 0.1 then 8 else 0) + (if takerLsRatio > 1.0 then 7 else 0)
    | SHORT => (if obImbalance < -0.1 then 8 else 0) + (if takerLsRatio < 1.0 then 7 else 0)
  -- Divergence (15 pts)
  let sDiv : ℚ :=
    if dir = LONG ∧ (ind.divergence_rsi = Divergence.bullish ∨ ind.divergence_macd = Divergence.bullish) then 15
    else if dir = SHORT ∧ (ind.divergence_rsi = Divergence.bearish ∨ ind.divergence_macd = Divergence.bearish) then 15
    else 0
  -- Candlestick patterns (aligned capped at 10, conflicting penalized)
  let sPatterns : ℚ := min 10 ((alignedCnt : ℚ) * 5) - (conflictingCnt : ℚ) * 5
  -- ML bonus (5 pts)
  let sMl : ℚ := min 5 (mlScore * 5)
  -- BTC correlation adjustment (±8)
  let sCorr : ℚ :=
    match btcCorr with
    | Option.none => 0
    | some c =>
      match dir with
      | LONG =>
          if c > 0.75 ∧ btcChange > 0 then 6
          else if c > 0.75 ∧ btcChange < -0.5 then -8
          else if c < 0.25 ∧ btcChange < 0 then 4
          else 0
      | SHORT =>
          if c > 0.75 ∧ btcChange < -0.5 then 6
          else if c > 0.75 ∧ btcChange > 0.5 then -8
          else if c < 0.25 ∧ btcChange > 0 then 4
          else 0
  -- Dominance-regime adjustment (±10)
  let sDom : ℚ :=
    match domRegime with
    | Option.none => 0
    | some d =>
      let base := (symbol.replace "USDT" "").replace "PERP" ""
      if d.regime = RegimeCat.risk_on_alt ∧ dir = LONG then 8
      else if d.regime = RegimeCat.risk_on_btc ∧ dir = LONG then
        (if base = "BTC" ∨ base = "ETH" then 6 else -6)
      else if d.regime = RegimeCat.risk_off ∧ dir = SHORT then 8
      else if d.regime = RegimeCat.risk_off ∧ dir = LONG then -10
      else 0
  min 100 (sTrend + sMomentum + sVolume + sFlow + sDiv + sPatterns + sMl +
    wyBonus + min 20 paBonus + sCorr + sDom)

/-- Criterion 1 — TREND: EMA stack fully aligned (source line 419). -/
def trendClearCheck (L : IndLocals) : Bool :=
  (L.ema9 > L.ema21 ∧ L.ema21 > L.ema50) ∨ (L.ema9 < L.ema21 ∧ L.ema21 < L.ema50)

/-- Criterion 2 — MOMENTUM: RSI in the direction's healthy zone (lines 422–425). -/
def rsiHealthyCheck (L : IndLocals) (dir : Direction) : Bool :=
  (dir = LONG ∧ 35 ≤ L.rsi14 ∧ L.rsi14 ≤ 68) ∨
  (dir = SHORT ∧ 32 ≤ L.rsi14 ∧ L.rsi14 ≤ 65)

/-- Criterion 4 — STRUCTURE (lines 433–438). -/
def hasStructureCheck (wy : WyckoffPhase) (paCount : ℕ) (ind : Indicators) : Bool :=
  wy ≠ WyckoffPhase.none ∨ paCount > 0 ∨
  ind.divergence_rsi ≠ Divergence.none ∨ ind.divergence_macd ≠ Divergence.none

/-- Criterion 5 — LOCATION: price at a key level (lines 441–448). -/
def atKeyLevelCheck (L : IndLocals) (ind : Indicators) (dir : Direction)
    (obImbalance : ℚ) : Bool :=
  |L.price - L.vwap| / (L.price + 1e-9) < 0.012 ∨
  (ind.pivots_s1.getD 0 > 0 ∧ dir = LONG) ∨
  (ind.pivots_r1.getD 0 > 0 ∧ dir = SHORT) ∨
  |obImbalance| > 0.15 ∨
  (L.price ≤ L.bb_lower * 1.005 ∧ dir = LONG) ∨
  (L.price ≥ L.bb_upper * 0.995 ∧ dir = SHORT)

/-- Criterion 6 — ORDER FLOW (lines 451–454). -/
def flowConfirmedCheck (dir : Direction) (obImbalance takerLsRatio : ℚ) : Bool :=
  (dir = LONG ∧ obImbalance > 0.10 ∧ takerLsRatio > 1.0) ∨
  (dir = SHORT ∧ obImbalance < -0.10 ∧ takerLsRatio < 1.0)

/-- Conflict check (lines 457–463). -/
def hasConflictCheck (L : IndLocals) (dir : Direction) (conflictingCnt : ℕ) : Bool :=
  (dir = LONG ∧ L.rsi14 > 72) ∨ (dir = SHORT ∧ L.rsi14 < 28) ∨
  (dir = LONG ∧ L.ema9 < L.ema21 ∧ L.ema21 < L.ema50) ∨
  (dir = SHORT ∧ L.ema9 > L.ema21 ∧ L.ema21 > L.ema50) ∨
  conflictingCnt > 0

/-- BTC-correlation criterion and hard kill (lines 488–513):
first component = `btc_corr_aligned`, second = `btc_corr_kills`. -/
def btcCorrFlags (dir : Direction) (btcCorr : Option ℚ) (btcChange : ℚ) :
    Bool × Bool :=
  match btcCorr with
  | Option.none => (true, false)
  | some c =>
    match dir with
    | LONG =>
        if c > 0.60 ∧ btcChange < -0.8 then
          (false, decide (c > 0.75 ∧ btcChange < -1.5))
        else if c > 0.60 ∧ btcChange < -0.3 then (false, false)
        else if c < 0.30 then (true, false)
        else if btcChange ≥ -0.3 then (true, false)
        else (true, false)
    | SHORT =>
        if c > 0.60 ∧ btcChange > 0.8 then
          (false, decide (c > 0.75 ∧ btcChange > 1.5))
        else if c > 0.60 ∧ btcChange > 0.3 then (false, false)
        else if c < 0.30 then (true, false)
        else if btcChange ≤ 0.3 then (true, false)
        else (true, false)

/-- Inputs to the grade-assignment block (source lines 523–602). -/
structure GradeInputs where
  direction : Direction
  score : ℚ
  aThresh : ℚ
  bThresh : ℚ
  cThresh : ℚ
  trendClear : Bool
  rsiHealthy : Bool
  volStrong : Bool
  volConfirmed : Bool
  volMinimum : Bool
  hasStructure : Bool
  atKeyLevel : Bool
  flowConfirmed : Bool
  btcCorrAligned : Bool
  hasConflict : Bool
  btcCorr : Option ℚ
  btcChange : ℚ
deriving DecidableEq, Repr

/-- Computes `n_criteria = sum(criteria.values())` over the 7 hard criteria. -/
def nCriteria (g : GradeInputs) : ℕ :=
  (cond g.trendClear 1 0) + (cond g.rsiHealthy 1 0) + (cond g.volConfirmed 1 0) +
  (cond g.hasStructure 1 0) + (cond g.atKeyLevel 1 0) + (cond g.flowConfirmed 1 0) +
  (cond g.btcCorrAligned 1 0)

/-- Grade assignment (source lines 541–602): the two A+ paths, the two B+
paths, the C+ path with its own correlation block, else no signal. -/
def gradeOf (g : GradeInputs) : Option Grade :=
  let n := nCriteria g
  if n ≥ 7 ∧ g.score ≥ g.aThresh ∧ g.rsiHealthy ∧ g.btcCorrAligned ∧ ¬g.hasConflict then
    some APlus
  else if n ≥ 6 ∧ g.score ≥ g.aThresh ∧ g.trendClear ∧ g.rsiHealthy ∧ g.btcCorrAligned ∧
      g.volStrong ∧ ¬g.hasConflict then
    some APlus
  else if n ≥ 5 ∧ g.score ≥ g.bThresh ∧ g.trendClear ∧ g.btcCorrAligned ∧
      g.volConfirmed ∧ ¬g.hasConflict then
    some BPlus
  else if n ≥ 6 ∧ g.score ≥ g.bThresh ∧ g.trendClear ∧ g.btcCorrAligned ∧
      ¬g.hasConflict then
    some BPlus
  else if n ≥ 3 ∧ g.score ≥ g.cThresh ∧ (g.trendClear ∨ g.rsiHealthy) ∧ g.volMinimum ∧
      ¬g.hasConflict ∧
      ¬(∃ c, g.btcCorr = some c ∧ c > 0.60 ∧
        ((g.direction = LONG ∧ g.btcChange < -1.0) ∨
         (g.direction = SHORT ∧ g.btcChange > 1.0))) then
    some CPlus
  else Option.none

/-- Python `max(list)` over a possibly-empty list with an explicit
else-branch value. -/
def pyMax (l : List ℚ) (dflt : ℚ) : ℚ :=
  match l with
  | [] => dflt
  | x :: xs => xs.foldl max x

/-- Python `min(list)` over a possibly-empty list with an explicit
else-branch value. -/
def pyMin (l : List ℚ) (dflt : ℚ) : ℚ :=
  match l with
  | [] => dflt
  | x :: xs => xs.foldl min x

/-- ATR buffer multiplier per trade type (source line 613). -/
def atrBuffer : TradeType → ℚ
  | scalp => 0.5
  | day => 1.0
  | swing => 1.5

/-- LONG stop-loss candidates (source lines 615–636): S1 pivot, lower
Bollinger band, pure-ATR fallback, and (scalp/day only) VWAP, each with
its small ATR buffer below. -/
def slCandidatesLong (tradeType : TradeType) (entry : ℚ) (ind : Indicators) : List ℚ :=
  (if 0 < ind.pivots_s1.getD 0 ∧ ind.pivots_s1.getD 0 < entry then
    [ind.pivots_s1.getD 0 - ind.atr14.getD (entry * 0.01) * 0.3] else []) ++
  (if 0 < ind.bb_lower.getD 0 ∧ ind.bb_lower.getD 0 < entry then
    [ind.bb_lower.getD 0 - ind.atr14.getD (entry * 0.01) * 0.2] else []) ++
  [entry - ind.atr14.getD (entry * 0.01) * (atrBuffer tradeType + 1.0)] ++
  (if (tradeType = scalp ∨ tradeType = day) ∧ 0 < ind.vwap.getD 0 ∧
      ind.vwap.getD 0 < entry * 0.998 then
    [ind.vwap.getD 0 - ind.atr14.getD (entry * 0.01) * 0.3] else [])

/-- SHORT stop-loss candidates (source lines 649–669). -/
def slCandidatesShort (tradeType : TradeType) (entry : ℚ) (ind : Indicators) : List ℚ :=
  (if ind.pivots_r1.getD 0 > entry then
    [ind.pivots_r1.getD 0 + ind.atr14.getD (entry * 0.01) * 0.3] else []) ++
  (if ind.bb_upper.getD 0 > entry then
    [ind.bb_upper.getD 0 + ind.atr14.getD (entry * 0.01) * 0.2] else []) ++
  [entry + ind.atr14.getD (entry * 0.01) * (atrBuffer tradeType + 1.0)] ++
  (if (tradeType = scalp ∨ tradeType = day) ∧ ind.vwap.getD 0 > entry * 1.002 then
    [ind.vwap.getD 0 + ind.atr14.getD (entry * 0.01) * 0.3] else [])

/-- Value `sl_raw` for LONG: tightest valid candidate below entry, ATR fallback
when none qualifies (source lines 639–643). -/
def slRawLong (tradeType : TradeType) (entry : ℚ) (ind : Indicators) : ℚ :=
  pyMax ((slCandidatesLong tradeType entry ind).filter
      (fun c => decide (0 < c) && decide (c < entry)))
    (entry - ind.atr14.getD (entry * 0.01) * (atrBuffer tradeType + 1.0))

/-- Value `sl_raw` for SHORT (source lines 671–675). -/
def slRawShort (tradeType : TradeType) (entry : ℚ) (ind : Indicators) : ℚ :=
  pyMin ((slCandidatesShort tradeType entry ind).filter (fun c => decide (c > entry)))
    (entry + ind.atr14.getD (entry * 0.01) * (atrBuffer tradeType + 1.0))

/-- Structure-based stop-loss selection (source lines 604–678): the most
logical candidate on the loss side of entry, hard-capped at 15% away,
rounded to 6 decimals. -/
def slOf (tradeType : TradeType) (dir : Direction) (entry : ℚ) (ind : Indicators) : ℚ :=
  match dir with
  | LONG => pyRound 6 (max (slRawLong tradeType entry ind) (entry - entry * 0.15))
  | SHORT => pyRound 6 (min (slRawShort tradeType entry ind) (entry + entry * 0.15))

/-- Target ladder construction (source lines 680–690): one target per
grade/duration risk multiple, each rounded to 6 decimals. -/
def tpsOf (grade : Grade) (tradeType : TradeType) (dir : Direction)
    (entry sl : ℚ) : List ℚ :=
  let risk := |entry - sl|
  (TP_RR_RATIOS grade tradeType).map
    (fun rr => match dir with
      | LONG => pyRound 6 (entry + risk * rr)
      | SHORT => pyRound 6 (entry - risk * rr))

/-- The fields of the signal dict `score_signal` returns that the
verified claims concern.  Pure pass-through diagnostics of the dict
(`funding_rate`, `rsi14`, `outperform`, `patterns`, `liq_zones`,
`btc_corr`, `wyckoff_phase`, `pa_signals`, the `grade_criteria`
sub-flags) and the free-text `confluences` are not modelled. -/
structure Signal where
  symbol : String
  tradeType : TradeType
  direction : Direction
  entry : ℚ
  sl : ℚ
  tps : List ℚ
  grade : Grade
  score : ℚ
  leverage : ℕ
  volRatio : ℚ
  criteriaMet : ℕ
deriving DecidableEq, Repr

/-- All arguments of one `score_signal` call.  `utcHour` is the ambient
`datetime.utcnow().hour` read inside the call; `indicators = none` models
the empty dict (`if not indicators: return None`).  The `oi_data` and
`liq_zones` arguments of the source are pass-through-only (never read by
the scoring logic) and are omitted. -/
structure ScorerInput where
  symbol : String
  tradeType : TradeType
  indicators : Option Indicators
  fundingRate : ℚ
  obImbalance : ℚ
  takerLsRatio : ℚ
  btcChange : ℚ
  coinChange : ℚ
  mlScore : ℚ
  domRegime : Option DomRegime
  btcCorr : Option ℚ
  utcHour : ℕ
deriving Repr

/-- The direction `score_signal` resolves for its input (the vote of
lines 94–187), `none` when the call rejects before/at the vote. -/
def directionOf (cfg : ScorerConfig) (inp : ScorerInput) : Option Direction :=
  match inp.indicators with
  | Option.none => Option.none
  | some ind =>
    let L := mkLocals ind
    if L.price = 0 then Option.none
    else directionVote cfg L ind inp.obImbalance inp.takerLsRatio inp.fundingRate
      inp.btcChange inp.coinChange

/-- Computes `vol_ratio = vol_current / (vol_sma20 + 1e-9)` (source line 92). -/
def volRatioOf (ind : Indicators) : ℚ :=
  (mkLocals ind).vol_current / ((mkLocals ind).vol_sma20 + 1e-9)

/-- The direction vote of one call, with the locals in place. -/
def dirVoteOf (cfg : ScorerConfig) (inp : ScorerInput) (ind : Indicators) :
    Option Direction :=
  directionVote cfg (mkLocals ind) ind inp.obImbalance inp.takerLsRatio
    inp.fundingRate inp.btcChange inp.coinChange

/-- The Wyckoff phase detected for one call. -/
def wyOf (inp : ScorerInput) (ind : Indicators) (dir : Direction) : WyckoffPhase :=
  wyckoffDetect (mkLocals ind) ind inp.obImbalance (volRatioOf ind) dir

/-- The assembled-and-capped confluence score (the value of the local
`score` right after `score = min(100, score)`, source line 385) computed
for one call that got past the direction vote. -/
def scoreOf (cfg : ScorerConfig) (inp : ScorerInput) (ind : Indicators)
    (dir : Direction) : ℚ :=
  assembleScore inp.symbol (volFloorsFor inp.utcHour) (volRatioOf ind)
    (mkLocals ind) ind dir inp.obImbalance inp.takerLsRatio inp.mlScore
    (wyckoffBonus (wyOf inp ind dir))
    (paDetect (mkLocals ind) ind inp.obImbalance dir).1
    (patternCounts ind.patterns dir).1 (patternCounts ind.patterns dir).2
    inp.btcCorr inp.btcChange inp.domRegime

/-- The grade-block inputs assembled by one call (source lines 417–539). -/
def ginOf (cfg : ScorerConfig) (inp : ScorerInput) (ind : Indicators)
    (dir : Direction) : GradeInputs :=
  { direction := dir
    score := scoreOf cfg inp ind dir
    aThresh := cfg.GRADE_A_PLUS
    bThresh := cfg.GRADE_B_PLUS
    cThresh := cfg.GRADE_C_PLUS
    trendClear := trendClearCheck (mkLocals ind)
    rsiHealthy := rsiHealthyCheck (mkLocals ind) dir
    volStrong := volRatioOf ind ≥ (volFloorsFor inp.utcHour).strong
    volConfirmed := volRatioOf ind ≥ (volFloorsFor inp.utcHour).confirmed
    volMinimum := volRatioOf ind ≥ (volFloorsFor inp.utcHour).minimum
    hasStructure := hasStructureCheck (wyOf inp ind dir)
      (paDetect (mkLocals ind) ind inp.obImbalance dir).2 ind
    atKeyLevel := atKeyLevelCheck (mkLocals ind) ind dir inp.obImbalance
    flowConfirmed := flowConfirmedCheck dir inp.obImbalance inp.takerLsRatio
    btcCorrAligned := (btcCorrFlags dir inp.btcCorr inp.btcChange).1
    hasConflict := hasConflictCheck (mkLocals ind) dir (patternCounts ind.patterns dir).2
    btcCorr := inp.btcCorr
    btcChange := inp.btcChange }

/-- The assembled confluence score a `score_signal` call computes for its
input; `none` when the call rejects before assembling the score. -/
def assembledScoreOf (cfg : ScorerConfig) (inp : ScorerInput) : Option ℚ :=
  match inp.indicators with
  | Option.none => Option.none
  | some ind =>
    if (mkLocals ind).price = 0 then Option.none
    else
      match dirVoteOf cfg inp ind with
      | Option.none => Option.none
      | some dir =>
        if volRatioOf ind < (volFloorsFor inp.utcHour).hardReject then Option.none
        else some (scoreOf cfg inp ind dir)

/-- Models `SignalScorer.score_signal` (source lines 17–772): the full scoring
pipeline, returning the signal dict or `None`. -/
def scoreSignal (cfg : ScorerConfig) (inp : ScorerInput) : Option Signal :=
  match inp.indicators with
  | Option.none => Option.none  -- `if not indicators`
  | some ind =>
    if (mkLocals ind).price = 0 then Option.none  -- `if not price`
    else
      match dirVoteOf cfg inp ind with
      | Option.none => Option.none  -- zero points or inconclusive band
      | some dir =>
        -- Hard filter: reject dead volume immediately (source lines 287–289)
        if volRatioOf ind < (volFloorsFor inp.utcHour).hardReject then Option.none
        -- Early kill: score can't possibly reach C+ minimum (source line 390)
        else if scoreOf cfg inp ind dir < 20 then Option.none
        -- Volatility floor (source lines 471–473)
        else if (mkLocals ind).atr / ((mkLocals ind).price + 1e-9) < 0.002 then Option.none
        -- Hard kill: BTC moving powerfully against this trade (lines 516–521)
        else if (btcCorrFlags dir inp.btcCorr inp.btcChange).2 then Option.none
        else
          match gradeOf (ginOf cfg inp ind dir) with
          | Option.none => Option.none  -- failed all three tiers
          | some grade =>
            some
              { symbol := inp.symbol
                tradeType := inp.tradeType
                direction := dir
                entry := pyRound 6 (mkLocals ind).price
                sl := pyRound 6 (slOf inp.tradeType dir (mkLocals ind).price ind)
                tps := tpsOf grade inp.tradeType dir (mkLocals ind).price
                  (slOf inp.tradeType dir (mkLocals ind).price ind)
                grade := grade
                score := pyRound 1 (scoreOf cfg inp ind dir)
                leverage := LEVERAGE grade inp.tradeType
                volRatio := pyRound 2 (volRatioOf ind)
                criteriaMet := nCriteria (ginOf cfg inp ind dir) }

/-- Expected number of targets per tier (the lengths of the
`TP_RR_RATIOS` ladders). -/
def targetCount : Grade → ℕ
  | APlus => 5
  | BPlus => 4
  | CPlus => 3

/-- A day-class quota state with one A+ already sent, no B+, headroom left. -/
def quotaDayExample : QuotaState :=
  { dayStart := 0, sentA := 1, sentB := 0, sentC := 0,
    lastHourSent := 0, hourHasAplus := false, dayHasBplus := false,
    dailyTarget := 9 }

/-- Grade-block inputs with exactly 4 criteria met (trend, momentum,
volume, correlation), score 70, default thresholds, no conflict. -/
def gradeCexInputs : GradeInputs :=
  { direction := LONG, score := 70, aThresh := 80, bThresh := 60, cThresh := 40,
    trendClear := true, rsiHealthy := true, volStrong := false, volConfirmed := true,
    volMinimum := true, hasStructure := false, atKeyLevel := false, flowConfirmed := false,
    btcCorrAligned := true, hasConflict := false, btcCorr := some (1/2), btcChange := 0 }

/-- A clean bullish indicator snapshot at price 100 (strong volume,
aligned EMA stack, bullish divergence, nearby S1 pivot). -/
def indGoodLong : Indicators :=
  { price := some 100, rsi14 := some 62, macd_hist := some 1, macd_hist_prev := some (1/2),
    stoch_k := some 50, vol_current := some (5/2), vol_sma20 := some 1,
    ema9 := some 102, ema21 := some 101, ema50 := some 100,
    vwap := some 99, bb_lower := some 97, bb_upper := some 103, atr14 := some 1,
    obv := some 10, obv_prev := some 5, divergence_rsi := .bullish, divergence_macd := .none,
    patterns := [], pivots_s1 := some 96, pivots_r1 := Option.none }

/-- A day-trade scan of `indGoodLong` at peak hours. -/
def goodLongInput : ScorerInput :=
  { symbol := "AVAXUSDT", tradeType := day, indicators := some indGoodLong,
    fundingRate := 0, obImbalance := 1/5, takerLsRatio := 6/5,
    btcChange := 1, coinChange := 2, mlScore := 4/5,
    domRegime := Option.none, btcCorr := some (1/2), utcHour := 12 }

/-- The signal `scoreSignal` returns for `goodLongInput`. -/
def goodLongSignal : Signal :=
  { symbol := "AVAXUSDT", tradeType := day, direction := LONG,
    entry := 100, sl := 987/10,
    tps := [513/5, 1039/10, 526/5, 2143/20, 1091/10],
    grade := APlus, score := 100, leverage := 7, volRatio := 5/2,
    criteriaMet := 7 }

/-- The same bullish snapshot scaled down to price `0.0001`, with an S1
pivot `10⁻¹⁰` below entry and ATR at the volatility floor: the chosen
stop rounds (at 6 decimals) onto the entry price itself. -/
def indTinyPrice : Indicators :=
  { price := some (1/10000), rsi14 := some 62, macd_hist := some 1, macd_hist_prev := some (1/2),
    stoch_k := some 50, vol_current := some (5/2), vol_sma20 := some 1,
    ema9 := some (102/1000000), ema21 := some (101/1000000), ema50 := some (100/1000000),
    vwap := some (9/100000), bb_lower := some (97/1000000), bb_upper := some (103/1000000),
    atr14 := some (21/100000000),
    obv := some 10, obv_prev := some 5, divergence_rsi := .bullish, divergence_macd := .none,
    patterns := [], pivots_s1 := some (999999/10000000000), pivots_r1 := Option.none }

/-- A day-trade scan of `indTinyPrice` at peak hours. -/
def tinyPriceInput : ScorerInput :=
  { symbol := "SHIBUSDT", tradeType := day, indicators := some indTinyPrice,
    fundingRate := 0, obImbalance := 1/5, takerLsRatio := 6/5,
    btcChange := 1, coinChange := 2, mlScore := 4/5,
    domRegime := Option.none, btcCorr := some (1/2), utcHour := 12 }

/-- The signal `scoreSignal` returns for `tinyPriceInput`: the stop
coincides with the entry and all five targets equal the entry. -/
def tinySignal : Signal :=
  { symbol := "SHIBUSDT", tradeType := day, direction := LONG,
    entry := 1/10000, sl := 1/10000,
    tps := [1/10000, 1/10000, 1/10000, 1/10000, 1/10000],
    grade := APlus, score := 100, leverage := 7, volRatio := 5/2,
    criteriaMet := 7 }

/-- An indicator snapshot that still resolves a LONG direction (stochastic,
funding, outperformance) but scores negatively: two conflicting bearish
engulfing patterns, correlation headwind, risk-off regime penalty. -/
def indNegScore : Indicators :=
  { price := some 100, rsi14 := some 70, macd_hist := some 0, macd_hist_prev := some 0,
    stoch_k := some 10, vol_current := some (3/5), vol_sma20 := some 1,
    ema9 := some 100, ema21 := some 100, ema50 := some 100,
    vwap := some 101, bb_lower := some 90, bb_upper := some 110, atr14 := some (1/2),
    obv := some 0, obv_prev := some 0, divergence_rsi := .none, divergence_macd := .none,
    patterns := [{ hasHammer := false, hasBullishEngulfing := false,
                   hasBearishEngulfing := true, hasDoji := false },
                 { hasHammer := false, hasBullishEngulfing := false,
                   hasBearishEngulfing := true, hasDoji := false }],
    pivots_s1 := Option.none, pivots_r1 := Option.none }

/-- A day-trade scan of `indNegScore`: BTC falling with high correlation,
risk-off regime. -/
def negativeScoreInput : ScorerInput :=
  { symbol := "DOGEUSDT", tradeType := day, indicators := some indNegScore,
    fundingRate := -1/100, obImbalance := -1/20, takerLsRatio := 19/20,
    btcChange := -1, coinChange := 2, mlScore := 0,
    domRegime := some { regime := .risk_off, btc_d := 50, usdt_d := 8,
                        btc_d_high := false, btc_d_low := false },
    btcCorr := some (9/10), utcHour := 12 }

/-- Input `indGoodLong` scanned while BTC drops 2% with correlation 0.85. -/
def corrKillInput : ScorerInput :=
  { symbol := "AVAXUSDT", tradeType := day, indicators := some indGoodLong,
    fundingRate := 0, obImbalance := 1/5, takerLsRatio := 6/5,
    btcChange := -2, coinChange := 0, mlScore := 4/5,
    domRegime := Option.none, btcCorr := some (17/20), utcHour := 12 }

/-- A 5-sample dominance window (USDT.D falling, BTC.D flat). -/
def domCandles5 : List DomCandle :=
  [{ t := 0, btc_d := 50, usdt_d := 8 },
   { t := 60, btc_d := 50, usdt_d := 79/10 },
   { t := 120, btc_d := 50, usdt_d := 78/10 },
   { t := 180, btc_d := 50, usdt_d := 77/10 },
   { t := 240, btc_d := 50, usdt_d := 76/10 }]

/-- One arbitrary previous fast-path signal state. -/
def domSigA : DomSignal :=
  { usdtTrend := .rising, btcTrend := .falling, usdtVelocity := 1, btcVelocity := -1,
    usdtAccel := 1, btcAccel := -1, scalpBias := .blocked, candleCount := 0 }

/-- A different previous fast-path signal state. -/
def domSigB : DomSignal :=
  { usdtTrend := .flat, btcTrend := .flat, usdtVelocity := 0, btcVelocity := 0,
    usdtAccel := 0, btcAccel := 0, scalpBias := .neutral, candleCount := 42 }

/-! ## Helper lemmas -/

theorem roundHalfEven_err (x : ℚ) : |(roundHalfEven x : ℚ) - x| ≤ 1/2 := by
  have hf : (⌊x⌋ : ℚ) ≤ x := Int.floor_le x
  have hf1 : x - 1 < ⌊x⌋ := Int.sub_one_lt_floor x
  rw [abs_le]
  unfold roundHalfEven
  split
  · constructor <;> [linarith; linarith [le_of_lt (by assumption : x - ⌊x⌋ < 1/2)]]
  · rename_i h1
    have h1' : (1:ℚ)/2 ≤ x - ⌊x⌋ := le_of_not_lt h1
    split
    · constructor <;> · push_cast; linarith
    · rename_i h2
      have h2' : x - ⌊x⌋ ≤ 1/2 := le_of_not_lt h2
      split <;> constructor <;> · push_cast; linarith

/-- Rounding `pyRound n` moves a value by at most half an ulp, `1/(2·10^n)`. -/
theorem pyRound_err (n : ℕ) (x : ℚ) :
    |pyRound n x - x| ≤ 1 / (2 * (10 ^ n : ℕ)) := by
  have hpos : (0:ℚ) < ((10 ^ n : ℕ) : ℚ) := by positivity
  have h := roundHalfEven_err (x * (10 ^ n : ℕ))
  have : pyRound n x - x = ((roundHalfEven (x * (10 ^ n : ℕ)) : ℚ) - x * (10 ^ n : ℕ)) / (10 ^ n : ℕ) := by
    rw [pyRound]
    field_simp
    ring
  rw [this, abs_div, abs_of_pos hpos, div_le_div_iff₀ hpos (by positivity)]
  calc |(roundHalfEven (x * (10 ^ n : ℕ)) : ℚ) - x * (10 ^ n : ℕ)| * (2 * (10 ^ n : ℕ))
      ≤ (1/2) * (2 * (10 ^ n : ℕ)) := by
        apply mul_le_mul_of_nonneg_right h (by positivity)
    _ = 1 * (10 ^ n : ℕ) := by ring

theorem pyRound_le (n : ℕ) (x : ℚ) : pyRound n x ≤ x + 1 / (2 * (10 ^ n : ℕ)) := by
  have := pyRound_err n x
  rw [abs_le] at this
  linarith [this.2]

theorem le_pyRound (n : ℕ) (x : ℚ) : x - 1 / (2 * (10 ^ n : ℕ)) ≤ pyRound n x := by
  have := pyRound_err n x
  rw [abs_le] at this
  linarith [this.1]

/-- Rounding never crosses an integer bound from below. -/
theorem pyRound_le_int (n : ℕ) (x : ℚ) (B : ℤ) (h : x ≤ B) : pyRound n x ≤ B := by
  have hM : (0:ℚ) < ((10 ^ n : ℕ) : ℚ) := by positivity
  have herr := roundHalfEven_err (x * (10 ^ n : ℕ))
  rw [abs_le] at herr
  have hub : (roundHalfEven (x * (10 ^ n : ℕ)) : ℚ) ≤ (B : ℚ) * (10 ^ n : ℕ) + 1/2 := by
    have : x * (10 ^ n : ℕ) ≤ (B : ℚ) * (10 ^ n : ℕ) :=
      mul_le_mul_of_nonneg_right h (le_of_lt hM)
    linarith [herr.2]
  have hint : roundHalfEven (x * (10 ^ n : ℕ)) ≤ B * (10 ^ n : ℕ) := by
    by_contra hc
    push_neg at hc
    have : (B * (10 ^ n : ℕ) + 1 : ℤ) ≤ roundHalfEven (x * (10 ^ n : ℕ)) := hc
    have : ((B * (10 ^ n : ℕ) + 1 : ℤ) : ℚ) ≤ (roundHalfEven (x * (10 ^ n : ℕ)) : ℚ) := by
      exact_mod_cast this
    push_cast at this hub
    linarith
  rw [pyRound, div_le_iff₀ hM]
  calc (roundHalfEven (x * (10 ^ n : ℕ)) : ℚ) ≤ ((B * (10 ^ n : ℕ) : ℤ) : ℚ) := by exact_mod_cast hint
    _ = (B : ℚ) * (10 ^ n : ℕ) := by push_cast; ring

/-- Rounding never crosses an integer bound from above. -/
theorem int_le_pyRound (n : ℕ) (x : ℚ) (B : ℤ) (h : (B : ℚ) ≤ x) : (B : ℚ) ≤ pyRound n x := by
  have hM : (0:ℚ) < ((10 ^ n : ℕ) : ℚ) := by positivity
  have herr := roundHalfEven_err (x * (10 ^ n : ℕ))
  rw [abs_le] at herr
  have hlb : (B : ℚ) * (10 ^ n : ℕ) - 1/2 ≤ (roundHalfEven (x * (10 ^ n : ℕ)) : ℚ) := by
    have : (B : ℚ) * (10 ^ n : ℕ) ≤ x * (10 ^ n : ℕ) :=
      mul_le_mul_of_nonneg_right h (le_of_lt hM)
    linarith [herr.1]
  have hint : B * (10 ^ n : ℕ) ≤ roundHalfEven (x * (10 ^ n : ℕ)) := by
    by_contra hc
    push_neg at hc
    have : (roundHalfEven (x * (10 ^ n : ℕ)) + 1 : ℤ) ≤ B * (10 ^ n : ℕ) := hc
    have : ((roundHalfEven (x * (10 ^ n : ℕ)) + 1 : ℤ) : ℚ) ≤ ((B * (10 ^ n : ℕ) : ℤ) : ℚ) := by
      exact_mod_cast this
    push_cast at this hlb
    linarith
  rw [pyRound, le_div_iff₀ hM]
  calc (B : ℚ) * (10 ^ n : ℕ) = ((B * (10 ^ n : ℕ) : ℤ) : ℚ) := by push_cast; ring
    _ ≤ (roundHalfEven (x * (10 ^ n : ℕ)) : ℚ) := by exact_mod_cast hint

theorem pyRound6_le (x : ℚ) : pyRound 6 x ≤ x + 1/2000000 := by
  have := pyRound_le 6 x
  norm_num at this
  linarith

theorem le_pyRound6 (x : ℚ) : x - 1/2000000 ≤ pyRound 6 x := by
  have := le_pyRound 6 x
  norm_num at this
  linarith

theorem roundHalfEven_intCast (k : ℤ) : roundHalfEven (k : ℚ) = k := by
  unfold roundHalfEven
  rw [Int.floor_intCast]
  norm_num

/-- Rounding an already-rounded value changes nothing. -/
theorem pyRound_idem (n : ℕ) (x : ℚ) : pyRound n (pyRound n x) = pyRound n x := by
  have hM : ((10 ^ n : ℕ) : ℚ) ≠ 0 := by positivity
  unfold pyRound
  rw [div_mul_cancel₀ _ hM, roundHalfEven_intCast]

theorem foldl_max_le {B : ℚ} (xs : List ℚ) (a : ℚ) (ha : a ≤ B)
    (h : ∀ x ∈ xs, x ≤ B) : xs.foldl max a ≤ B := by
  induction xs generalizing a with
  | nil => exact ha
  | cons y ys ih =>
    exact ih (max a y) (max_le ha (h y (by simp)))
      (fun x hx => h x (by simp [hx]))

theorem foldl_min_ge {B : ℚ} (xs : List ℚ) (a : ℚ) (ha : B ≤ a)
    (h : ∀ x ∈ xs, B ≤ x) : B ≤ xs.foldl min a := by
  induction xs generalizing a with
  | nil => exact ha
  | cons y ys ih =>
    exact ih (min a y) (le_min ha (h y (by simp)))
      (fun x hx => h x (by simp [hx]))

theorem pyMax_le {B : ℚ} (l : List ℚ) (d : ℚ) (hd : d ≤ B)
    (h : ∀ x ∈ l, x ≤ B) : pyMax l d ≤ B := by
  cases l with
  | nil => exact hd
  | cons x xs =>
    exact foldl_max_le xs x (h x (by simp)) (fun y hy => h y (by simp [hy]))

theorem le_pyMin {B : ℚ} (l : List ℚ) (d : ℚ) (hd : B ≤ d)
    (h : ∀ x ∈ l, B ≤ x) : B ≤ pyMin l d := by
  cases l with
  | nil => exact hd
  | cons x xs =>
    exact foldl_min_ge xs x (h x (by simp)) (fun y hy => h y (by simp [hy]))

/-- Successive risk multiples in every `TP_RR_RATIOS` ladder are at least
`0.7` apart. -/
theorem ladder_gaps (g : Grade) (tt : TradeType) :
    List.Chain' (fun a b => a + 7/10 ≤ b) (TP_RR_RATIOS g tt) := by
  cases g <;> cases tt <;> · simp [TP_RR_RATIOS, List.chain'_cons]; norm_num

/-- Every ladder starts at risk multiple `2.0`. -/
theorem ladder_head (g : Grade) (tt : TradeType) :
    (TP_RR_RATIOS g tt).head? = some 2 := by
  cases g <;> cases tt <;> · simp [TP_RR_RATIOS]; norm_num

/-- Ladder lengths are 5/4/3 for A+/B+/C+. -/
theorem ladder_len (g : Grade) (tt : TradeType) :
    (TP_RR_RATIOS g tt).length = targetCount g := by
  cases g <;> cases tt <;> rfl

/-- The assembled score is capped above at 100 by `min(100, score)`. -/
theorem scoreOf_le_100 (cfg : ScorerConfig) (inp : ScorerInput) (ind : Indicators)
    (dir : Direction) : scoreOf cfg inp ind dir ≤ 100 := by
  unfold scoreOf assembleScore
  exact min_le_left _ _

/-- Inversion of `scoreSignal`: a returned signal pins down every branch
condition of the pipeline and the shape of the returned record. -/
theorem scoreSignal_inv (cfg : ScorerConfig) (inp : ScorerInput) (sig : Signal)
    (h : scoreSignal cfg inp = some sig) :
    ∃ ind dir grade,
      inp.indicators = some ind ∧
      dirVoteOf cfg inp ind = some dir ∧
      gradeOf (ginOf cfg inp ind dir) = some grade ∧
      ¬(mkLocals ind).price = 0 ∧
      ¬(volRatioOf ind < (volFloorsFor inp.utcHour).hardReject) ∧
      ¬(scoreOf cfg inp ind dir < 20) ∧
      ¬((mkLocals ind).atr / ((mkLocals ind).price + 1e-9) < 0.002) ∧
      ¬((btcCorrFlags dir inp.btcCorr inp.btcChange).2 = true) ∧
      sig = { symbol := inp.symbol
              tradeType := inp.tradeType
              direction := dir
              entry := pyRound 6 (mkLocals ind).price
              sl := pyRound 6 (slOf inp.tradeType dir (mkLocals ind).price ind)
              tps := tpsOf grade inp.tradeType dir (mkLocals ind).price
                (slOf inp.tradeType dir (mkLocals ind).price ind)
              grade := grade
              score := pyRound 1 (scoreOf cfg inp ind dir)
              leverage := LEVERAGE grade inp.tradeType
              volRatio := pyRound 2 (volRatioOf ind)
              criteriaMet := nCriteria (ginOf cfg inp ind dir) } := by
  unfold scoreSignal at h
  split at h
  · exact absurd h (by simp)
  · rename_i ind hind
    split at h
    · exact absurd h (by simp)
    · rename_i hpz
      split at h
      · exact absurd h (by simp)
      · rename_i dir hdir
        split at h
        · exact absurd h (by simp)
        · split at h
          · exact absurd h (by simp)
          · split at h
            · exact absurd h (by simp)
            · split at h
              · exact absurd h (by simp)
              · rename_i hvol hscore hatr hkill
                split at h
                · exact absurd h (by simp)
                · rename_i grade hgrade
                  rw [Option.some_inj] at h
                  exact ⟨ind, dir, grade, hind, hdir, hgrade, hpz, hvol, hscore,
                    hatr, hkill, h.symm⟩

theorem atrBuffer_ge (tt : TradeType) : (3:ℚ)/2 ≤ atrBuffer tt + 1 := by
  cases tt <;> norm_num [atrBuffer]

/-- Every LONG stop candidate sits at least `0.2·ATR` below entry. -/
theorem mem_slCandidatesLong_le (tt : TradeType) (entry : ℚ) (ind : Indicators)
    (hpos : 0 < entry) (hatr : 0 < ind.atr14.getD (entry * 0.01)) :
    ∀ c ∈ slCandidatesLong tt entry ind,
      c ≤ entry - 1/5 * ind.atr14.getD (entry * 0.01) := by
  intro c hc
  have hbuf := atrBuffer_ge tt
  simp only [slCandidatesLong, List.mem_append, List.mem_singleton] at hc
  rcases hc with ((hc | hc) | hc) | hc
  · split_ifs at hc with hcnd
    · simp only [List.mem_singleton] at hc
      subst hc
      obtain ⟨h0, hlt⟩ := hcnd
      linarith
    · simp at hc
  · split_ifs at hc with hcnd
    · simp only [List.mem_singleton] at hc
      subst hc
      obtain ⟨h0, hlt⟩ := hcnd
      linarith
    · simp at hc
  · subst hc
    nlinarith [mul_le_mul_of_nonneg_left hbuf (le_of_lt hatr)]
  · split_ifs at hc with hcnd
    · simp only [List.mem_singleton] at hc
      subst hc
      obtain ⟨htt, h0, hlt⟩ := hcnd
      nlinarith
    · simp at hc

/-- Every SHORT stop candidate sits at least `0.2·ATR` above entry. -/
theorem mem_slCandidatesShort_ge (tt : TradeType) (entry : ℚ) (ind : Indicators)
    (hpos : 0 < entry) (hatr : 0 < ind.atr14.getD (entry * 0.01)) :
    ∀ c ∈ slCandidatesShort tt entry ind,
      entry + 1/5 * ind.atr14.getD (entry * 0.01) ≤ c := by
  intro c hc
  have hbuf := atrBuffer_ge tt
  simp only [slCandidatesShort, List.mem_append, List.mem_singleton] at hc
  rcases hc with ((hc | hc) | hc) | hc
  · split_ifs at hc with hcnd
    · simp only [List.mem_singleton] at hc
      subst hc
      linarith
    · simp at hc
  · split_ifs at hc with hcnd
    · simp only [List.mem_singleton] at hc
      subst hc
      linarith
    · simp at hc
  · subst hc
    nlinarith [mul_le_mul_of_nonneg_left hbuf (le_of_lt hatr)]
  · split_ifs at hc with hcnd
    · simp only [List.mem_singleton] at hc
      subst hc
      obtain ⟨htt, hgt⟩ := hcnd
      nlinarith
    · simp at hc

theorem slRawLong_le (tt : TradeType) (entry : ℚ) (ind : Indicators)
    (hpos : 0 < entry) (hatr : 0 < ind.atr14.getD (entry * 0.01)) :
    slRawLong tt entry ind ≤ entry - 1/5 * ind.atr14.getD (entry * 0.01) := by
  have hbuf := atrBuffer_ge tt
  apply pyMax_le
  · nlinarith [mul_le_mul_of_nonneg_left hbuf (le_of_lt hatr)]
  · intro x hx
    exact mem_slCandidatesLong_le tt entry ind hpos hatr x (List.mem_filter.mp hx).1

theorem slRawShort_ge (tt : TradeType) (entry : ℚ) (ind : Indicators)
    (hpos : 0 < entry) (hatr : 0 < ind.atr14.getD (entry * 0.01)) :
    entry + 1/5 * ind.atr14.getD (entry * 0.01) ≤ slRawShort tt entry ind := by
  have hbuf := atrBuffer_ge tt
  apply le_pyMin
  · nlinarith [mul_le_mul_of_nonneg_left hbuf (le_of_lt hatr)]
  · intro x hx
    exact mem_slCandidatesShort_ge tt entry ind hpos hatr x (List.mem_filter.mp hx).1

/-- Bounds for the LONG stop: at least `0.85·entry − ε`, at most
`entry − min(0.2·ATR, 0.15·entry) + ε`, with `ε = ` half an ulp of the
6-decimal rounding. -/
theorem slOf_LONG_bounds (tt : TradeType) (entry : ℚ) (ind : Indicators)
    (hpos : 0 < entry) (hatr : 0 < ind.atr14.getD (entry * 0.01)) :
    17/20 * entry - 1/2000000 ≤ slOf tt LONG entry ind ∧
    slOf tt LONG entry ind ≤
      entry - min (1/5 * ind.atr14.getD (entry * 0.01)) (3/20 * entry) + 1/2000000 := by
  have hraw := slRawLong_le tt entry ind hpos hatr
  have hid : entry - entry * 0.15 = 17/20 * entry := by ring
  constructor
  · have h1 : entry - entry * 0.15 ≤
        max (slRawLong tt entry ind) (entry - entry * 0.15) := le_max_right _ _
    have h2 := le_pyRound6 (max (slRawLong tt entry ind) (entry - entry * 0.15))
    unfold slOf
    linarith
  · have hmin1 := min_le_left (1/5 * ind.atr14.getD (entry * 0.01)) (3/20 * entry)
    have hmin2 := min_le_right (1/5 * ind.atr14.getD (entry * 0.01)) (3/20 * entry)
    have hm : max (slRawLong tt entry ind) (entry - entry * 0.15) ≤
        entry - min (1/5 * ind.atr14.getD (entry * 0.01)) (3/20 * entry) :=
      max_le (by linarith) (by linarith)
    have h2 := pyRound6_le (max (slRawLong tt entry ind) (entry - entry * 0.15))
    unfold slOf
    linarith

/-- Bounds for the SHORT stop: mirror image of `slOf_LONG_bounds`. -/
theorem slOf_SHORT_bounds (tt : TradeType) (entry : ℚ) (ind : Indicators)
    (hpos : 0 < entry) (hatr : 0 < ind.atr14.getD (entry * 0.01)) :
    entry + min (1/5 * ind.atr14.getD (entry * 0.01)) (3/20 * entry) - 1/2000000 ≤
      slOf tt SHORT entry ind ∧
    slOf tt SHORT entry ind ≤ 23/20 * entry + 1/2000000 := by
  have hraw := slRawShort_ge tt entry ind hpos hatr
  have hid : entry + entry * 0.15 = 23/20 * entry := by ring
  have hmin1 := min_le_left (1/5 * ind.atr14.getD (entry * 0.01)) (3/20 * entry)
  have hmin2 := min_le_right (1/5 * ind.atr14.getD (entry * 0.01)) (3/20 * entry)
  constructor
  · have hm : entry + min (1/5 * ind.atr14.getD (entry * 0.01)) (3/20 * entry) ≤
        min (slRawShort tt entry ind) (entry + entry * 0.15) :=
      le_min (by linarith) (by linarith)
    have h2 := le_pyRound6 (min (slRawShort tt entry ind) (entry + entry * 0.15))
    unfold slOf
    linarith
  · have h1 : min (slRawShort tt entry ind) (entry + entry * 0.15) ≤
        entry + entry * 0.15 := min_le_right _ _
    have h2 := pyRound6_le (min (slRawShort tt entry ind) (entry + entry * 0.15))
    unfold slOf
    linarith

/-- Output of `slOf` is a fixed point of the 6-decimal rounding. -/
theorem slOf_round_idem (tt : TradeType) (dir : Direction) (entry : ℚ)
    (ind : Indicators) : pyRound 6 (slOf tt dir entry ind) = slOf tt dir entry ind := by
  cases dir <;> simp [slOf, pyRound_idem]

theorem tpsOf_length (g : Grade) (tt : TradeType) (dir : Direction) (entry sl : ℚ) :
    (tpsOf g tt dir entry sl).length = targetCount g := by
  simp [tpsOf, ladder_len]

theorem targetCount_ge_3 (g : Grade) : 3 ≤ targetCount g := by
  cases g <;> simp [targetCount]

/-- With a risk distance above `10⁻⁶/0.7`, the rounded LONG target ladder
is strictly increasing. -/
theorem tpsOf_chain_LONG (g : Grade) (tt : TradeType) (entry sl : ℚ)
    (hr : 1/1000000 < |entry - sl| * (7/10)) :
    List.Chain' (· < ·) (tpsOf g tt LONG entry sl) := by
  have hgaps := ladder_gaps g tt
  have hrisk0 : 0 ≤ |entry - sl| := abs_nonneg _
  simp only [tpsOf]
  rw [List.chain'_map]
  refine hgaps.imp ?_
  intro a b hab
  have h1 := pyRound6_le (entry + |entry - sl| * a)
  have h2 := le_pyRound6 (entry + |entry - sl| * b)
  have h3 : |entry - sl| * (a + 7/10) ≤ |entry - sl| * b :=
    mul_le_mul_of_nonneg_left hab hrisk0
  nlinarith

/-- With a risk distance above `10⁻⁶/0.7`, the rounded SHORT target
ladder is strictly decreasing. -/
theorem tpsOf_chain_SHORT (g : Grade) (tt : TradeType) (entry sl : ℚ)
    (hr : 1/1000000 < |entry - sl| * (7/10)) :
    List.Chain' (· > ·) (tpsOf g tt SHORT entry sl) := by
  have hgaps := ladder_gaps g tt
  have hrisk0 : 0 ≤ |entry - sl| := abs_nonneg _
  simp only [tpsOf]
  rw [List.chain'_map]
  refine hgaps.imp ?_
  intro a b hab
  have h1 := le_pyRound6 (entry - |entry - sl| * a)
  have h2 := pyRound6_le (entry - |entry - sl| * b)
  have h3 : |entry - sl| * (a + 7/10) ≤ |entry - sl| * b :=
    mul_le_mul_of_nonneg_left hab hrisk0
  nlinarith

theorem tpsOf_head_LONG (g : Grade) (tt : TradeType) (entry sl : ℚ) :
    (tpsOf g tt LONG entry sl).head? = some (pyRound 6 (entry + |entry - sl| * 2)) := by
  simp [tpsOf, List.head?_map, ladder_head]

theorem tpsOf_head_SHORT (g : Grade) (tt : TradeType) (entry sl : ℚ) :
    (tpsOf g tt SHORT entry sl).head? = some (pyRound 6 (entry - |entry - sl| * 2)) := by
  simp [tpsOf, List.head?_map, ladder_head]

theorem mkLocals_atr (ind : Indicators) :
    (mkLocals ind).atr = ind.atr14.getD ((mkLocals ind).price * 0.01) := rfl

/-- Passing the volatility floor bounds ATR from below. -/
theorem atr_lower (e A : ℚ) (hpos : 0 < e + 1e-9) (h : ¬(A / (e + 1e-9) < 0.002)) :
    1/500 * (e + 1e-9) ≤ A := by
  rw [not_lt, le_div_iff₀ hpos] at h
  norm_num at h ⊢
  linarith

/-- All risk-construction facts shared by the target/stop claims, for a
returned signal with entry price at least `0.01 - ε`. -/
theorem risk_facts (tt : TradeType) (dir : Direction) (e : ℚ) (ind : Indicators)
    (hEe : 1/100 - 1/2000000 ≤ e)
    (hA : 1/500 * (e + 1e-9) ≤ ind.atr14.getD (e * 0.01)) :
    (dir = LONG → 3/1000000 ≤ e - slOf tt dir e ind ∧
      e - slOf tt dir e ind ≤ 3/20 * e + 1/1000000) ∧
    (dir = SHORT → 3/1000000 ≤ slOf tt dir e ind - e ∧
      slOf tt dir e ind - e ≤ 3/20 * e + 1/1000000) := by
  have hpos : 0 < e := by linarith
  have hA0 : 0 < ind.atr14.getD (e * 0.01) := by linarith
  have hmin : 1/2500 * e ≤ min (1/5 * ind.atr14.getD (e * 0.01)) (3/20 * e) :=
    le_min (by linarith) (by linarith)
  have hminhi := min_le_right (1/5 * ind.atr14.getD (e * 0.01)) (3/20 * e)
  cases dir with
  | LONG =>
    obtain ⟨hlo, hhi⟩ := slOf_LONG_bounds tt e ind hpos hA0
    refine ⟨fun _ => ⟨by nlinarith, by linarith⟩, fun hco => by simp at hco⟩
  | SHORT =>
    obtain ⟨hlo, hhi⟩ := slOf_SHORT_bounds tt e ind hpos hA0
    refine ⟨fun hco => by simp at hco, fun _ => ⟨by nlinarith, by linarith⟩⟩

/-- Function `directionOf` agrees with the vote inside the pipeline. -/
theorem directionOf_eq (cfg : ScorerConfig) (inp : ScorerInput) (ind : Indicators)
    (hind : inp.indicators = some ind) (hpz : ¬(mkLocals ind).price = 0) :
    directionOf cfg inp = dirVoteOf cfg inp ind := by
  simp [directionOf, hind, hpz, dirVoteOf]

/-- Full pipeline evaluation on `goodLongInput`. -/
theorem goodLongInput_eval :
    scoreSignal defaultConfig goodLongInput = some goodLongSignal := by
  norm_num [scoreSignal, volRatioOf, dirVoteOf, wyOf, scoreOf, ginOf, mkLocals,
    volFloorsFor, directionVote, wyckoffDetect, wyckoffBonus, paDetect, patternCounts,
    assembleScore, trendClearCheck, rsiHealthyCheck, hasStructureCheck, atKeyLevelCheck,
    flowConfirmedCheck, hasConflictCheck, btcCorrFlags, nCriteria, gradeOf, slOf,
    slRawLong, slCandidatesLong, tpsOf, pyMax, pyMin, atrBuffer, pyRound, roundHalfEven,
    goodLongInput, indGoodLong, goodLongSignal, defaultConfig,
    TP_RR_RATIOS, LEVERAGE]
  simp only [show |(13:ℚ)/10| = 13/10 from by norm_num]
  simp
  norm_num [min_def, max_def]

/-- Full pipeline evaluation on `tinyPriceInput`: the rounding collapses
the stop and the whole target ladder onto the entry. -/
theorem tinyPriceInput_eval :
    scoreSignal defaultConfig tinyPriceInput = some tinySignal := by
  norm_num [scoreSignal, volRatioOf, dirVoteOf, wyOf, scoreOf, ginOf, mkLocals,
    volFloorsFor, directionVote, wyckoffDetect, wyckoffBonus, paDetect, patternCounts,
    assembleScore, trendClearCheck, rsiHealthyCheck, hasStructureCheck, atKeyLevelCheck,
    flowConfirmedCheck, hasConflictCheck, btcCorrFlags, nCriteria, gradeOf, slOf,
    slRawLong, slCandidatesLong, tpsOf, pyMax, pyMin, atrBuffer, pyRound, roundHalfEven,
    tinyPriceInput, indTinyPrice, tinySignal, defaultConfig,
    TP_RR_RATIOS, LEVERAGE]
  simp

/-! ## Claim theorems -/

/-- Claim C7: For every quota state, class and tier, the gate check
(`_quota_allows`) hands back the state unchanged, and two consecutive
`_record_quota_send` calls for the same class and tier increase
`sent_today[tier]` by exactly 2. -/
theorem quota_check_pure_record_adds_two :
    ∀ (tt : TradeType) (g : Grade) (q : QuotaState) (now t₁ t₂ : ℚ),
      (quotaAllowsRun tt g q now).2 = q ∧
      (recordQuotaSend (recordQuotaSend q t₁ g) t₂ g).sentToday g = q.sentToday g + 2 := by
  intro tt g q now t₁ t₂
  constructor
  · cases tt <;> cases g <;> unfold quotaAllowsRun <;> (repeat' split) <;> rfl
  · cases g <;> rfl

/-- Claim C4, counterexample: The scalp-class gate lets a C+ candidate
through even though the class's daily target (24) is already exhausted
(30 signals sent): the scalp branch of `_quota_allows` performs no
headroom check. -/
theorem quota_cplus_scalp_no_headroom :
    quotaAllows scalp CPlus quotaScalpFull 10000 = true ∧
    ¬(quotaScalpFull.totalSent < quotaScalpFull.dailyTarget) := by
  constructor
  · norm_num [quotaAllows, quotaScalpFull, GAP, QuotaState.totalSent]
  · decide

/-- Claim C4, amended: A C+ candidate passes the quota gate only if the
day's B+ flag is clear and the B+ counter is zero; for the day and swing
classes it additionally requires headroom (total sent today below the
daily target), while the scalp class applies no headroom check. -/
theorem quota_cplus_only_if :
    ∀ (tt : TradeType) (q : QuotaState) (now : ℚ),
      quotaAllows tt CPlus q now = true →
      q.dayHasBplus = false ∧ q.sentB = 0 ∧
        ((tt = day ∨ tt = swing) → q.totalSent < q.dailyTarget) := by
  intro tt q now h
  cases tt <;>
    simp only [quotaAllows, GAP] at h <;>
    split at h <;>
    simp_all

/-- Claim C4, witness for the amended theorem: A day-class state that the
gate admits indeed satisfies all three conditions. -/
theorem quota_cplus_only_if_witness :
    quotaDayExample.dayHasBplus = false ∧ quotaDayExample.sentB = 0 ∧
      ((day = day ∨ day = swing) → quotaDayExample.totalSent < quotaDayExample.dailyTarget) :=
  quota_cplus_only_if day quotaDayExample 1000000
    (by norm_num [quotaAllows, quotaDayExample, GAP, QuotaState.totalSent])

/-- Claim C3, amended: For every Signal the scorer returns whose entry is
at least `0.01`, the stop lies within 15% of the entry up to the
6-decimal price-rounding tolerance (`|entry−sl| ≤ 0.15·entry + 4ε` with
`ε = 5·10⁻⁷`), and it lies strictly on the loss side of the entry (below
for LONG, above for SHORT).  Without the entry-size hypothesis the
rounding can place the stop exactly on the entry (see the
counterexample). -/
theorem signal_stop_bounds (cfg : ScorerConfig) (inp : ScorerInput) (sig : Signal)
    (h : scoreSignal cfg inp = some sig) (hE : 1/100 ≤ sig.entry) :
    |sig.entry - sig.sl| ≤ 0.15 * sig.entry + 1/500000 ∧
    (sig.direction = LONG → sig.sl < sig.entry) ∧
    (sig.direction = SHORT → sig.entry < sig.sl) := by
  obtain ⟨ind, dir, grade, hind, hdir, hgrade, hpz, hvol, hscore, hatr, hkill, hsig⟩ :=
    scoreSignal_inv cfg inp sig h
  subst hsig
  dsimp only at hE ⊢
  rw [slOf_round_idem]
  rw [mkLocals_atr] at hatr
  have hEe : 1/100 - 1/2000000 ≤ (mkLocals ind).price := by
    have := pyRound6_le (mkLocals ind).price
    linarith
  have hpose : (0:ℚ) < (mkLocals ind).price + 1e-9 := by norm_num; linarith
  have hA := atr_lower _ _ hpose hatr
  have hrf := risk_facts inp.tradeType dir (mkLocals ind).price ind hEe hA
  have hup := pyRound6_le (mkLocals ind).price
  have hdn := le_pyRound6 (mkLocals ind).price
  cases dir with
  | LONG =>
    obtain ⟨hr1, hr2⟩ := hrf.1 rfl
    have hlt : slOf inp.tradeType LONG (mkLocals ind).price ind <
        pyRound 6 (mkLocals ind).price := by linarith
    have habs : |pyRound 6 (mkLocals ind).price -
        slOf inp.tradeType LONG (mkLocals ind).price ind| =
        pyRound 6 (mkLocals ind).price -
        slOf inp.tradeType LONG (mkLocals ind).price ind :=
      abs_of_pos (by linarith)
    refine ⟨?_, fun _ => hlt, fun hco => by simp at hco⟩
    rw [habs]
    nlinarith
  | SHORT =>
    obtain ⟨hr1, hr2⟩ := hrf.2 rfl
    have hlt : pyRound 6 (mkLocals ind).price <
        slOf inp.tradeType SHORT (mkLocals ind).price ind := by linarith
    have habs : |pyRound 6 (mkLocals ind).price -
        slOf inp.tradeType SHORT (mkLocals ind).price ind| =
        slOf inp.tradeType SHORT (mkLocals ind).price ind -
        pyRound 6 (mkLocals ind).price := by
      rw [abs_sub_comm]
      exact abs_of_pos (by linarith)
    refine ⟨?_, fun hco => by simp at hco, fun _ => hlt⟩
    rw [habs]
    nlinarith

/-- Claim C2, amended: For every Signal the scorer returns whose entry is
at least `0.01`, the target list has at least 3 entries, successive
targets are strictly monotone away from the entry in the trade direction,
and the first target's distance from the entry is at least `2×` the stop
distance minus the 6-decimal rounding tolerance `4ε = 2·10⁻⁶`.  Without
the entry-size hypothesis the rounding can collapse the whole ladder onto
the entry price (see the counterexample). -/
theorem signal_targets_ladder (cfg : ScorerConfig) (inp : ScorerInput) (sig : Signal)
    (h : scoreSignal cfg inp = some sig) (hE : 1/100 ≤ sig.entry) :
    3 ≤ sig.tps.length ∧
    (sig.direction = LONG → List.Chain' (· < ·) (sig.entry :: sig.tps)) ∧
    (sig.direction = SHORT → List.Chain' (· > ·) (sig.entry :: sig.tps)) ∧
    2 * |sig.entry - sig.sl| - 1/500000 ≤ |sig.tps.headD sig.entry - sig.entry| := by
  obtain ⟨ind, dir, grade, hind, hdir, hgrade, hpz, hvol, hscore, hatr, hkill, hsig⟩ :=
    scoreSignal_inv cfg inp sig h
  subst hsig
  dsimp only at hE ⊢
  rw [slOf_round_idem]
  rw [mkLocals_atr] at hatr
  have hEe : 1/100 - 1/2000000 ≤ (mkLocals ind).price := by
    have := pyRound6_le (mkLocals ind).price
    linarith
  have hpose : (0:ℚ) < (mkLocals ind).price + 1e-9 := by norm_num; linarith
  have hA := atr_lower _ _ hpose hatr
  have hrf := risk_facts inp.tradeType dir (mkLocals ind).price ind hEe hA
  have hup := pyRound6_le (mkLocals ind).price
  have hdn := le_pyRound6 (mkLocals ind).price
  refine ⟨by rw [tpsOf_length]; exact targetCount_ge_3 grade, ?_⟩
  cases dir with
  | LONG =>
    obtain ⟨hr1, hr2⟩ := hrf.1 rfl
    have habs : |(mkLocals ind).price - slOf inp.tradeType LONG (mkLocals ind).price ind| =
        (mkLocals ind).price - slOf inp.tradeType LONG (mkLocals ind).price ind :=
      abs_of_pos (by linarith)
    have hhead := tpsOf_head_LONG grade inp.tradeType (mkLocals ind).price
      (slOf inp.tradeType LONG (mkLocals ind).price ind)
    have ht0up := pyRound6_le ((mkLocals ind).price +
      |(mkLocals ind).price - slOf inp.tradeType LONG (mkLocals ind).price ind| * 2)
    have ht0dn := le_pyRound6 ((mkLocals ind).price +
      |(mkLocals ind).price - slOf inp.tradeType LONG (mkLocals ind).price ind| * 2)
    rw [habs] at ht0up ht0dn
    refine ⟨?_, fun hco => by simp at hco, ?_⟩
    · intro _
      rw [List.chain'_cons']
      refine ⟨?_, tpsOf_chain_LONG grade inp.tradeType _ _ (by rw [habs]; nlinarith)⟩
      intro y hy
      rw [hhead] at hy
      simp only [Option.mem_def, Option.some_inj] at hy
      subst hy
      rw [habs]
      linarith
    · rw [List.headD_eq_head?, hhead]
      simp only [Option.getD_some]
      have hEs : |pyRound 6 (mkLocals ind).price -
          slOf inp.tradeType LONG (mkLocals ind).price ind| =
          pyRound 6 (mkLocals ind).price -
          slOf inp.tradeType LONG (mkLocals ind).price ind :=
        abs_of_pos (by linarith)
      have htE : |pyRound 6 ((mkLocals ind).price +
          ((mkLocals ind).price - slOf inp.tradeType LONG (mkLocals ind).price ind) * 2) -
          pyRound 6 (mkLocals ind).price| =
          pyRound 6 ((mkLocals ind).price +
          ((mkLocals ind).price - slOf inp.tradeType LONG (mkLocals ind).price ind) * 2) -
          pyRound 6 (mkLocals ind).price :=
        abs_of_pos (by linarith)
      rw [habs, hEs, htE]
      linarith
  | SHORT =>
    obtain ⟨hr1, hr2⟩ := hrf.2 rfl
    have habs : |(mkLocals ind).price - slOf inp.tradeType SHORT (mkLocals ind).price ind| =
        slOf inp.tradeType SHORT (mkLocals ind).price ind - (mkLocals ind).price := by
      rw [abs_sub_comm]
      exact abs_of_pos (by linarith)
    have hhead := tpsOf_head_SHORT grade inp.tradeType (mkLocals ind).price
      (slOf inp.tradeType SHORT (mkLocals ind).price ind)
    have ht0up := pyRound6_le ((mkLocals ind).price -
      |(mkLocals ind).price - slOf inp.tradeType SHORT (mkLocals ind).price ind| * 2)
    have ht0dn := le_pyRound6 ((mkLocals ind).price -
      |(mkLocals ind).price - slOf inp.tradeType SHORT (mkLocals ind).price ind| * 2)
    rw [habs] at ht0up ht0dn
    refine ⟨fun hco => by simp at hco, ?_, ?_⟩
    · intro _
      rw [List.chain'_cons']
      refine ⟨?_, tpsOf_chain_SHORT grade inp.tradeType _ _ (by rw [habs]; nlinarith)⟩
      intro y hy
      rw [hhead] at hy
      simp only [Option.mem_def, Option.some_inj] at hy
      subst hy
      rw [habs]
      linarith
    · rw [List.headD_eq_head?, hhead]
      simp only [Option.getD_some]
      have hEs : |pyRound 6 (mkLocals ind).price -
          slOf inp.tradeType SHORT (mkLocals ind).price ind| =
          slOf inp.tradeType SHORT (mkLocals ind).price ind -
          pyRound 6 (mkLocals ind).price := by
        rw [abs_sub_comm]
        exact abs_of_pos (by linarith)
      have htE : |pyRound 6 ((mkLocals ind).price -
          (slOf inp.tradeType SHORT (mkLocals ind).price ind - (mkLocals ind).price) * 2) -
          pyRound 6 (mkLocals ind).price| =
          pyRound 6 (mkLocals ind).price -
          pyRound 6 ((mkLocals ind).price -
          (slOf inp.tradeType SHORT (mkLocals ind).price ind - (mkLocals ind).price) * 2) := by
        rw [abs_sub_comm]
        exact abs_of_pos (by linarith)
      rw [habs, hEs, htE]
      linarith

/-- Claim C5, amended: The assembled score is capped above at 100 only
(`min(100, score)`, no lower clamp), and any candidate whose capped score
is below 20 is rejected; hence every Signal the scorer returns carries a
score within `[20, 100] ⊆ [0, 100]`. -/
theorem signal_score_in_range (cfg : ScorerConfig) (inp : ScorerInput) (sig : Signal)
    (h : scoreSignal cfg inp = some sig) :
    20 ≤ sig.score ∧ sig.score ≤ 100 := by
  obtain ⟨ind, dir, grade, hind, hdir, hgrade, hpz, hvol, hscore, hatr, hkill, hsig⟩ :=
    scoreSignal_inv cfg inp sig h
  subst hsig
  dsimp only
  constructor
  · have h20 : ((20:ℤ):ℚ) ≤ scoreOf cfg inp ind dir := by
      push_cast
      linarith [not_lt.mp hscore]
    have := int_le_pyRound 1 (scoreOf cfg inp ind dir) 20 h20
    exact_mod_cast this
  · have h100 : scoreOf cfg inp ind dir ≤ ((100:ℤ):ℚ) := by
      push_cast
      exact scoreOf_le_100 cfg inp ind dir
    have := pyRound_le_int 1 (scoreOf cfg inp ind dir) 100 h100
    exact_mod_cast this

/-- Claim C10: For every Signal the scorer returns, the tier exactly
determines the number of targets, for every duration class: 5 targets
for A+, 4 for B+, 3 for C+. -/
theorem signal_target_count (cfg : ScorerConfig) (inp : ScorerInput) (sig : Signal)
    (h : scoreSignal cfg inp = some sig) :
    sig.tps.length = targetCount sig.grade ∧
    targetCount APlus = 5 ∧ targetCount BPlus = 4 ∧ targetCount CPlus = 3 := by
  obtain ⟨ind, dir, grade, hind, hdir, hgrade, hpz, hvol, hscore, hatr, hkill, hsig⟩ :=
    scoreSignal_inv cfg inp sig h
  subst hsig
  dsimp only
  exact ⟨tpsOf_length grade inp.tradeType dir _ _, rfl, rfl, rfl⟩

/-- Claim C6: Whenever a candidate resolves to direction LONG while its
reference-asset correlation is `0.85` and the reference asset changed
`−2.0%`, the scorer returns no signal: the correlation hard-kill fires
independently of the score and of every other indicator value. -/
theorem corr_hard_kill (cfg : ScorerConfig) (inp : ScorerInput)
    (hdir : directionOf cfg inp = some LONG)
    (hcorr : inp.btcCorr = some 0.85) (hchg : inp.btcChange = -2) :
    scoreSignal cfg inp = Option.none := by
  cases hs : scoreSignal cfg inp with
  | none => rfl
  | some sig =>
    exfalso
    obtain ⟨ind, dir, grade, hind, hdirv, hgrade, hpz, hvol, hscore, hatr, hkill, hsig⟩ :=
      scoreSignal_inv cfg inp sig hs
    rw [directionOf_eq cfg inp ind hind hpz, hdirv, Option.some_inj] at hdir
    subst hdir
    apply hkill
    rw [hcorr, hchg]
    norm_num [btcCorrFlags]

/-- Claim C1, counterexample: A candidate with exactly 4 criteria met,
score 70, thresholds A+:80 / B+:60 / C+:40, clear trend, confirmed
volume and no conflict is graded C+ — not B+ as the scenario claims
(4 criteria cannot satisfy the B+ paths' `criteria ≥ 5` / `≥ 6`). -/
theorem grade_scenario_counterexample :
    nCriteria gradeCexInputs = 4 ∧ gradeCexInputs.score = 70 ∧
    gradeCexInputs.aThresh = 80 ∧ gradeCexInputs.bThresh = 60 ∧
    gradeCexInputs.cThresh = 40 ∧ gradeCexInputs.trendClear = true ∧
    gradeCexInputs.volConfirmed = true ∧ gradeCexInputs.hasConflict = false ∧
    gradeOf gradeCexInputs = some CPlus := by
  refine ⟨rfl, rfl, rfl, rfl, rfl, rfl, rfl, rfl, ?_⟩
  norm_num [gradeOf, nCriteria, gradeCexInputs]

/-- Claim C1, amended: A candidate with exactly 4 criteria met, score 70,
thresholds A+:80 / B+:60 / C+:40, clear trend, confirmed volume (hence
also above the volume minimum) and no conflict is graded C+ — provided
the C+ tier's own correlation veto does not fire — never B+. -/
theorem grade_scenario_amended (g : GradeInputs)
    (hn : nCriteria g = 4) (hs : g.score = 70)
    (ha : g.aThresh = 80) (hb : g.bThresh = 60) (hc : g.cThresh = 40)
    (ht : g.trendClear = true) (hv : g.volConfirmed = true) (hvm : g.volMinimum = true)
    (hcf : g.hasConflict = false)
    (hcb : ¬(∃ c, g.btcCorr = some c ∧ c > 0.60 ∧
        ((g.direction = LONG ∧ g.btcChange < -1.0) ∨
         (g.direction = SHORT ∧ g.btcChange > 1.0)))) :
    gradeOf g = some CPlus := by
  unfold gradeOf
  rw [hn, hs, ha, hb, hc, ht, hvm, hcf]
  rw [if_neg (by norm_num), if_neg (by norm_num), if_neg (by norm_num),
    if_neg (by norm_num), if_pos]
  refine ⟨by norm_num, by norm_num, Or.inl rfl, rfl, by norm_num, hcb⟩

/-- Claim C1, witness for the amended theorem: The concrete 4-criteria
candidate is graded C+. -/
theorem grade_scenario_amended_witness : gradeOf gradeCexInputs = some CPlus :=
  grade_scenario_amended gradeCexInputs rfl rfl rfl rfl rfl rfl rfl rfl rfl
    (by norm_num [gradeCexInputs])

/-- Claim C2, counterexample: A returned signal at entry price `0.0001`
whose targets are NOT strictly increasing in distance from the entry:
rounding to 6 decimals collapses all five targets onto the entry. -/
theorem targets_ladder_counterexample :
    scoreSignal defaultConfig tinyPriceInput = some tinySignal ∧
    ¬ List.Chain' (fun a b => |a - tinySignal.entry| < |b - tinySignal.entry|)
      tinySignal.tps := by
  refine ⟨tinyPriceInput_eval, ?_⟩
  intro hchain
  simp only [tinySignal, List.chain'_cons, List.chain'_singleton] at hchain
  exact absurd hchain.1 (by norm_num)

/-- Claim C2, witness for the amended theorem: The concrete `goodLongInput`
signal (entry 100) satisfies the amended target-ladder property. -/
theorem signal_targets_ladder_witness :
    3 ≤ goodLongSignal.tps.length ∧
    (goodLongSignal.direction = LONG →
      List.Chain' (· < ·) (goodLongSignal.entry :: goodLongSignal.tps)) ∧
    (goodLongSignal.direction = SHORT →
      List.Chain' (· > ·) (goodLongSignal.entry :: goodLongSignal.tps)) ∧
    2 * |goodLongSignal.entry - goodLongSignal.sl| - 1/500000 ≤
      |goodLongSignal.tps.headD goodLongSignal.entry - goodLongSignal.entry| :=
  signal_targets_ladder defaultConfig goodLongInput goodLongSignal goodLongInput_eval
    (by norm_num [goodLongSignal])

/-- Claim C3, counterexample: A returned signal at entry price `0.0001`
whose stop is NOT strictly on the loss side of the entry: the stop equals
the entry exactly after rounding. -/
theorem stop_bounds_counterexample :
    scoreSignal defaultConfig tinyPriceInput = some tinySignal ∧
    tinySignal.direction = LONG ∧ tinySignal.sl = tinySignal.entry :=
  ⟨tinyPriceInput_eval, rfl, rfl⟩

/-- Claim C3, witness for the amended theorem: The concrete `goodLongInput`
signal satisfies the amended stop property. -/
theorem signal_stop_bounds_witness :
    |goodLongSignal.entry - goodLongSignal.sl| ≤
      0.15 * goodLongSignal.entry + 1/500000 ∧
    (goodLongSignal.direction = LONG → goodLongSignal.sl < goodLongSignal.entry) ∧
    (goodLongSignal.direction = SHORT → goodLongSignal.entry < goodLongSignal.sl) :=
  signal_stop_bounds defaultConfig goodLongInput goodLongSignal goodLongInput_eval
    (by norm_num [goodLongSignal])

/-- Claim C5, counterexample: The assembled confluence score is NOT clamped
to `[0, 100]`: on `negativeScoreInput` (conflicting patterns, correlation
headwind, risk-off regime) the value right after `score = min(100, score)`
is `−26`. -/
theorem score_clamp_counterexample :
    assembledScoreOf defaultConfig negativeScoreInput = some (-26) ∧
    (-26 : ℚ) < 0 := by
  refine ⟨?_, by norm_num⟩
  norm_num [assembledScoreOf, volRatioOf, dirVoteOf, wyOf, scoreOf, mkLocals,
    volFloorsFor, directionVote, wyckoffDetect, wyckoffBonus, paDetect, patternCounts,
    assembleScore, negativeScoreInput, indNegScore, defaultConfig, min_def, max_def]
  all_goals try simp
  all_goals try norm_num [min_def, max_def]
  all_goals try simp
  all_goals try norm_num [min_def, max_def]

/-- Claim C5, witness for the amended theorem: The concrete `goodLongInput`
signal carries a score inside `[20, 100]`. -/
theorem signal_score_in_range_witness :
    20 ≤ goodLongSignal.score ∧ goodLongSignal.score ≤ 100 :=
  signal_score_in_range defaultConfig goodLongInput goodLongSignal goodLongInput_eval

/-- Claim C6, witness: The concrete LONG candidate `corrKillInput`
(correlation 0.85, reference asset −2%) yields no signal. -/
theorem corr_hard_kill_witness :
    scoreSignal defaultConfig corrKillInput = Option.none :=
  corr_hard_kill defaultConfig corrKillInput
    (by norm_num [directionOf, dirVoteOf, directionVote, mkLocals,
      corrKillInput, indGoodLong, defaultConfig])
    (by norm_num [corrKillInput])
    (by norm_num [corrKillInput])

/-- Claim C10, witness: The concrete A+ signal carries 5 targets. -/
theorem signal_target_count_witness :
    goodLongSignal.tps.length = targetCount goodLongSignal.grade ∧
    targetCount APlus = 5 ∧ targetCount BPlus = 4 ∧ targetCount CPlus = 3 :=
  signal_target_count defaultConfig goodLongInput goodLongSignal goodLongInput_eval

/-- Claim C8: On one polled update of an open trade, the stop condition is
decided before any target condition — a price crossing the stop closes
the trade as a loss on that update — and the target-progress counter
never decreases. -/
theorem monitor_stop_first_targets_monotone :
    ∀ (dir : Direction) (sl : ℚ) (tps : List ℚ) (tpsHit : ℕ) (price : ℚ),
      (slHitCheck dir price sl = true →
        monitorStep dir sl tps tpsHit price = StepResult.closedLoss) ∧
      (∀ n, monitorStep dir sl tps tpsHit price = StepResult.stillOpen n → tpsHit ≤ n) := by
  intro dir sl tps tpsHit price
  constructor
  · intro hsl
    simp [monitorStep, hsl]
  · intro n h
    unfold monitorStep at h
    split at h
    · exact absurd h (by simp)
    · split at h
      · simp only [StepResult.stillOpen.injEq] at h
        omega
      · split at h
        · exact absurd h (by simp)
        · simp only [StepResult.stillOpen.injEq] at h
          omega

/-- Claim C8, witness: A LONG trade whose polled price 94 crosses the stop
95 closes as a loss on that update, even though no target was reached. -/
theorem monitor_stop_first_witness :
    monitorStep LONG 95 [110, 120, 130] 0 94 = StepResult.closedLoss :=
  (monitor_stop_first_targets_monotone LONG 95 [110, 120, 130] 0 94).1 (by decide)

/-- Claim C9: The fast-path regime computation is deterministic in the
sample window: over any 5-sample window the result — trend labels,
velocities, accelerations, scalp bias (every modelled field) — does not
depend on the previous signal state. -/
theorem dom_signal_deterministic :
    ∀ (candles : List DomCandle) (s₁ s₂ : DomSignal),
      candles.length = 5 →
      updateDomSignal candles s₁ = updateDomSignal candles s₂ := by
  intro candles s₁ s₂ h
  unfold updateDomSignal
  rw [if_neg (by omega), if_neg (by omega)]

/-- Claim C9, witness: The concrete 5-sample window produces the same
signal from two different previous signal states. -/
theorem dom_signal_deterministic_witness :
    updateDomSignal domCandles5 domSigA = updateDomSignal domCandles5 domSigB :=
  dom_signal_deterministic domCandles5 domSigA domSigB rfl

end Valkyrie
